import Mathlib

/-!
Shallow embedding of the parameter resolution and linking engine of the
Talk-to-Metabase MCP server, together with proofs about its behaviour.

The embedding models Python values with an inductive `Value` type and Python
dictionaries as ordered association lists (unique keys, as in Python) with
replace-in-place update semantics.  The modules under
`talk_to_metabase/tools/` that the claims concern are embedded one namespace
each:

* `EP`  — `tools/enhanced_parameters/core.py` (query-scoped parameters)
* `EDP` — `tools/enhanced_dashboard_parameters.py` (dashboard-scoped)
* `CP`  — `tools/card_parameters.py`
* `P`   — `tools/parameters.py`
* `DC`  — `tools/dashcards.py`

External collaborators (the `jsonschema` library, the Metabase HTTP client,
and the random number generator) are injected as explicit parameters, so the
embedded pipelines are pure functions of their inputs.
-/

namespace TTM

/-- Python runtime values, restricted to the JSON-like fragment the parameter
engine manipulates.  Python `None` is `null`; numbers are modelled as integers
(no claim depends on float behaviour). -/
inductive Value where
  | null : Value
  | bool : Bool → Value
  | int : Int → Value
  | str : String → Value
  | list : List Value → Value
  | dict : List (String × Value) → Value

/-- A Python dictionary: ordered association list with unique keys. -/
abbrev Dict := List (String × Value)

/-- Python truthiness (`bool(v)`). -/
def truthy : Value → Bool
  | .null => false
  | .bool b => b
  | .int n => n != 0
  | .str s => s != ""
  | .list xs => !xs.isEmpty
  | .dict d => !d.isEmpty

/-- `k in d` for an association list (Python `in` on a dict). -/
def akey {α : Type} : List (String × α) → String → Bool
  | [], _ => false
  | p :: rest, k => p.1 == k || akey rest k

/-- `d[k]` / `d.get(k)` on an association list, distinguishing a missing key. -/
def aget {α : Type} : List (String × α) → String → Option α
  | [], _ => none
  | p :: rest, k => if p.1 = k then some p.2 else aget rest k

/-- `d[k] = v`: replace the value in place if the key exists (keys are unique
in a Python dict), else append the new entry at the end. -/
def aset {α : Type} : List (String × α) → String → α → List (String × α)
  | [], k, v => [(k, v)]
  | p :: rest, k, v => if p.1 = k then (k, v) :: rest else p :: aset rest k v

def hasKey (d : Dict) (k : String) : Bool := akey d k

/-- `d[k]` / `d.get(k)`, distinguishing a missing key (`none`). -/
def dget (d : Dict) (k : String) : Option Value := aget d k

/-- Python `d.get(k)`: a missing key yields `None`. -/
def pyGet (d : Dict) (k : String) : Value := (dget d k).getD .null

/-- Python `d.get(k, dflt)`. -/
def pyGetD (d : Dict) (k : String) (dflt : Value) : Value := (dget d k).getD dflt

/-- `d[k] = v` on a Python dict. -/
def dset (d : Dict) (k : String) (v : Value) : Dict := aset d k v

mutual

/-- Python `==` on embedded values (structural equality). -/
def valueBEq : Value → Value → Bool
  | .null, .null => true
  | .bool a, .bool b => a == b
  | .int a, .int b => a == b
  | .str a, .str b => a == b
  | .list a, .list b => valueListBEq a b
  | .dict a, .dict b => valueDictBEq a b
  | _, _ => false

/-- Python `==` on lists of values. -/
def valueListBEq : List Value → List Value → Bool
  | [], [] => true
  | x :: xs, y :: ys => valueBEq x y && valueListBEq xs ys
  | _, _ => false

/-- Python `==` on dicts (here: ordered association lists). -/
def valueDictBEq : List (String × Value) → List (String × Value) → Bool
  | [], [] => true
  | (k₁, v₁) :: xs, (k₂, v₂) :: ys => k₁ == k₂ && valueBEq v₁ v₂ && valueDictBEq xs ys
  | _, _ => false

end

/-- Python `v in l` for a list of values. -/
def pyMem (v : Value) (l : List Value) : Bool := l.any (valueBEq v)

/-- The string payload of a value (`""` for non-strings; the engine only
reaches this on schema-validated string fields). -/
def asStr : Value → String
  | .str s => s
  | _ => ""

/-- The integer payload of a value (`0` for non-integers; the engine only
reaches this on schema-validated integer fields). -/
def asInt : Value → Int
  | .int n => n
  | _ => 0

/-- Lookup on a value that the source indexes as a dict (`v[k]` / `v.get(k)`);
`null` when `v` is not a dict (the schema precludes that case). -/
def vGet (v : Value) (k : String) : Value :=
  match v with
  | .dict d => pyGet d k
  | _ => .null

/-- Is the value a Python list? -/
def isListVal : Value → Bool
  | .list _ => true
  | _ => false

/-- `isinstance(v, (int, float))`; Python `bool` is an `int` subclass. -/
def isPyNumber : Value → Bool
  | .int _ => true
  | .bool _ => true
  | _ => false

/-! ### Decimal rendering of naturals (`str(n)` for a non-negative int) -/

/-- The decimal digit character for `d < 10`. -/
def digitChar : Nat → Char
  | 0 => '0' | 1 => '1' | 2 => '2' | 3 => '3' | 4 => '4'
  | 5 => '5' | 6 => '6' | 7 => '7' | 8 => '8' | _ => '9'

/-- Inverse of `digitChar` on decimal digit characters. -/
def charDigit : Char → Nat
  | '0' => 0 | '1' => 1 | '2' => 2 | '3' => 3 | '4' => 4
  | '5' => 5 | '6' => 6 | '7' => 7 | '8' => 8 | _ => 9

/-- Digit list of `n` (most significant first), with explicit fuel so the
definition reduces definitionally. -/
def natDecAux : Nat → Nat → List Char
  | 0, _ => []
  | fuel + 1, n =>
    if n < 10 then [digitChar n]
    else natDecAux fuel (n / 10) ++ [digitChar (n % 10)]

/-- Python `str(n)` for a natural number. -/
def natDec (n : Nat) : String := ⟨natDecAux (n + 1) n⟩

/-- Decimal value of a digit string (positional left fold). -/
def decVal (cs : List Char) : Nat := cs.foldl (fun acc c => acc * 10 + charDigit c) 0

def intDec (n : Int) : String :=
  if n < 0 then "-" ++ natDec n.natAbs else natDec n.natAbs

/-- Python `str(v)` for the scalar values the engine stringifies
(static dropdown values and defaults).  Lists and dicts are never stringified
by the engine on schema-validated input; they render as a placeholder. -/
def pyStr : Value → String
  | .null => "None"
  | .bool true => "True"
  | .bool false => "False"
  | .int n => intDec n
  | .str s => s
  | .list _ => "<list>"
  | .dict _ => "<dict>"

/-! ### Slug generation

`generate_slug` (enhanced_parameters/core.py and enhanced_dashboard_parameters.py)
and `generate_slug_from_name` (card_parameters.py) share one body:
`re.sub(r'[^a-zA-Z0-9]+', '_', name.lower().strip())`, then `.strip('_')`,
then the `"parameter"` fallback. -/

/-- The regex class `[a-zA-Z0-9]`. -/
def isAlnumChar (c : Char) : Bool :=
  ('a' ≤ c && c ≤ 'z') || ('A' ≤ c && c ≤ 'Z') || ('0' ≤ c && c ≤ '9')

/-- The characters Python's `str.strip()` removes (ASCII whitespace). -/
def isPySpace (c : Char) : Bool :=
  c == ' ' || c == '\t' || c == '\n' || c == '\r' || c == '\x0b' || c == '\x0c'

/-- Python `str.lower()` on the ASCII range (every non-ASCII character is
non-alphanumeric for the slug regex, so the result is unaffected). -/
def lowerChar (c : Char) : Char :=
  if 'A' ≤ c && c ≤ 'Z' then Char.ofNat (c.toNat + 32) else c

/-- `re.sub(r'[^a-zA-Z0-9]+', '_', ·)`: replace each maximal run of
non-alphanumerics with a single underscore.  The flag records whether the
previous character belonged to a (already replaced) run. -/
def collapseAux : Bool → List Char → List Char
  | _, [] => []
  | inRun, c :: rest =>
    if isAlnumChar c then c :: collapseAux false rest
    else if inRun then collapseAux true rest
    else '_' :: collapseAux true rest

def isUnd (c : Char) : Bool := c == '_'

/-- Remove a trailing run of characters satisfying `p`. -/
def dropEnd (p : Char → Bool) (l : List Char) : List Char := (l.reverse.dropWhile p).reverse

/-- Python `str.strip('_')`. -/
def trimUnd (l : List Char) : List Char := (dropEnd isUnd l).dropWhile isUnd

/-- Python `str.strip()`. -/
def pyStrip (l : List Char) : List Char := dropEnd isPySpace (l.dropWhile isPySpace)

/-- The common body of `generate_slug` / `generate_slug_from_name`. -/
def slugPy (name : String) : String :=
  let stripped := pyStrip (name.data.map lowerChar)
  let trimmed := trimUnd (collapseAux false stripped)
  if trimmed.isEmpty then "parameter" else ⟨trimmed⟩

/-- The slug transform exactly as the specification words it: lower-case,
replace each run of non-alphanumerics with a single underscore, trim edge
underscores, substitute `"parameter"` if empty (no `strip()` step). -/
def slugSpec (name : String) : String :=
  let trimmed := trimUnd (collapseAux false (name.data.map lowerChar))
  if trimmed.isEmpty then "parameter" else ⟨trimmed⟩

/-- Whether the collapse flag is set after processing `l` starting from `b`. -/
def runFlag : Bool → List Char → Bool
  | b, [] => b
  | _, c :: cs => runFlag (!isAlnumChar c) cs

/-- The generic collision-retry loop (`while candidate in existing`): both the
slug dedup loop and the id allocation loops draw successive candidates until
one is outside `existing`; `existing.length + 1` draws suffice whenever the
candidates in that window are pairwise distinct.  Starting at candidate index
`k`, return the first candidate not in `existing`, giving up (and returning
the current candidate) when the fuel runs out. -/
def searchFrom (cand : Nat → String) (existing : List String) : Nat → Nat → String
  | k, 0 => cand k
  | k, fuel + 1 =>
    if cand k ∈ existing then searchFrom cand existing (k + 1) fuel else cand k

/-- Is the value a Python dict with the given key? -/
def vHasKey (v : Value) (k : String) : Bool :=
  match v with
  | .dict d => hasKey d k
  | _ => false

/-! ## `EP` — tools/enhanced_parameters/core.py (query-scoped parameters) -/

namespace EP

/-- `SIMPLE_PARAMETER_TYPES`: membership and lookup in one map. -/
def SIMPLE_PARAMETER_TYPES : String → Option String
  | "category" => some "text"
  | "number/=" => some "number"
  | "date/single" => some "date"
  | _ => none

def FIELD_FILTER_TYPES : List String :=
  ["string/=", "string/!=", "string/contains", "string/does-not-contain",
   "string/starts-with", "string/ends-with",
   "number/!=", "number/between", "number/>=", "number/<=",
   "date/range", "date/relative", "date/all-options", "date/month-year",
   "date/quarter-year"]

def UI_WIDGET_MAPPINGS : String → Option String
  | "input" => some "none"
  | "dropdown" => some "list"
  | "search" => some "search"
  | _ => none

/-- `generate_slug` (same body as `generate_slug_from_name`). -/
def generate_slug (name : String) : String := slugPy name

def is_field_filter_parameter (param_type : String) : Bool :=
  FIELD_FILTER_TYPES.contains param_type

/-- `["field", field_config["field_id"], None]`. -/
def resolve_field_reference (field_config : Value) : Value :=
  .list [.str "field", vGet field_config "field_id", .null]

def get_parameter_target (param_name : String) (is_field_filter : Bool) : Value :=
  if is_field_filter then
    .list [.str "dimension", .list [.str "template-tag", .str param_name]]
  else
    .list [.str "variable", .list [.str "template-tag", .str param_name]]

/-- `ui_widget` is `param_config.get("ui_widget")`, hence a `Value`
(`null` when absent). -/
def convert_ui_widget_to_values_query_type (ui_widget : Value) : String :=
  match ui_widget with
  | .null => "none"
  | .str w => (UI_WIDGET_MAPPINGS w).getD "none"
  | _ => "none"

def build_values_source_config (values_source : Value) (field_config : Value) :
    Option String × Option Dict :=
  if !truthy values_source then (none, none)
  else
    let source_type := vGet values_source "type"
    if valueBEq source_type (.str "static") then
      let values := vGet values_source "values"
      let formatted_values :=
        match values with
        | .list (v₀ :: rest) =>
          if isPyNumber v₀ then
            Value.list ((v₀ :: rest).map (fun v => .list [.str (pyStr v)]))
          else Value.list (v₀ :: rest)
        | v => v
      (some "static-list", some [("values", formatted_values)])
    else if valueBEq source_type (.str "card") then
      let config : Dict :=
        [("card_id", vGet values_source "card_id"),
         ("value_field", .list [.str "field", vGet values_source "value_field",
            .dict [("base-type", .str "type/Text")]])]
      let config :=
        if vHasKey values_source "label_field" then
          dset config "label_field" (.list [.str "field", vGet values_source "label_field",
            .dict [("base-type", .str "type/Text")]])
        else config
      (some "card", some config)
    else if valueBEq source_type (.str "connected") && truthy field_config then
      (none, some [])
    else (none, none)

/-- The `is_number_dropdown` condition that appears in both
`create_template_tag` and `process_single_parameter`. -/
def is_number_dropdown (param_type : String) (param_config : Dict) : Bool :=
  param_type == "number/=" &&
  valueBEq (pyGet param_config "ui_widget") (.str "dropdown") &&
  valueBEq (vGet (pyGetD param_config "values_source" (.dict [])) "type") (.str "static")

def create_template_tag (param_name param_type : String) (param_config : Dict)
    (param_id : String) : Dict :=
  let template_tag : Dict :=
    match SIMPLE_PARAMETER_TYPES param_type with
    | some tag_type =>
      [("type", .str tag_type),
       ("name", .str param_name),
       ("id", .str param_id),
       ("display-name", pyGetD param_config "display_name" (.str param_name))]
    | none =>
      [("type", .str "dimension"),
       ("name", .str param_name),
       ("id", .str param_id),
       ("display-name", pyGetD param_config "display_name" (.str param_name)),
       ("dimension", resolve_field_reference (pyGet param_config "field")),
       ("widget-type", .str param_type)]
  let template_tag :=
    if hasKey param_config "default" && !valueBEq (pyGet param_config "default") .null then
      let default_value := pyGet param_config "default"
      if is_number_dropdown param_type param_config && !isListVal default_value then
        dset template_tag "default" (.list [.str (pyStr default_value)])
      else dset template_tag "default" default_value
    else template_tag
  if hasKey param_config "required" then
    dset template_tag "required" (pyGet param_config "required")
  else template_tag

def process_single_parameter (param_config : Dict) (param_id : String) : Dict × Dict :=
  let param_name := asStr (pyGet param_config "name")
  let param_type := asStr (pyGet param_config "type")
  let is_field_filter := is_field_filter_parameter param_type
  let processed_param : Dict :=
    [("id", .str param_id),
     ("type", .str param_type),
     ("target", get_parameter_target param_name is_field_filter),
     ("name", pyGetD param_config "display_name" (.str param_name)),
     ("slug", .str (generate_slug param_name))]
  let processed_param :=
    if hasKey param_config "default" then
      let default_value := pyGet param_config "default"
      if is_number_dropdown param_type param_config && !isListVal default_value then
        dset processed_param "default" (.list [.str (pyStr default_value)])
      else dset processed_param "default" default_value
    else processed_param
  let processed_param :=
    if hasKey param_config "required" then
      dset processed_param "required" (pyGet param_config "required")
    else processed_param
  let values_source := pyGet param_config "values_source"
  let field_config := pyGet param_config "field"
  let ui_widget := pyGet param_config "ui_widget"
  let values_query_type := convert_ui_widget_to_values_query_type ui_widget
  let processed_param := dset processed_param "values_query_type" (.str values_query_type)
  let processed_param :=
    if values_query_type == "list" || values_query_type == "search" then
      let vsc := build_values_source_config values_source field_config
      let processed_param :=
        match vsc.1 with
        | some t => dset processed_param "values_source_type" (.str t)
        | none => processed_param
      match vsc.2 with
      | some c => dset processed_param "values_source_config" (.dict c)
      | none => processed_param
    else processed_param
  let template_tag := create_template_tag param_name param_type param_config param_id
  (processed_param, template_tag)

/-- The duplicate-name loop of `validate_enhanced_parameters` (`seen_names` is
the accumulated set; elements are only added when not already present, so a
list models the set faithfully). -/
def duplicate_name_errors : Nat → List Value → List Dict → List String
  | _, _, [] => []
  | i, seen_names, param :: rest =>
    let name := pyGet param "name"
    if truthy name && pyMem name seen_names then
      ("Parameter " ++ natDec i ++ ": duplicate name '" ++ pyStr name ++ "'") ::
        duplicate_name_errors (i + 1) seen_names rest
    else if truthy name then
      duplicate_name_errors (i + 1) (seen_names ++ [name]) rest
    else duplicate_name_errors (i + 1) seen_names rest

/-- The loop body of `validate_parameter_widget_compatibility`. -/
def widget_compatibility_errors : Nat → List Dict → List String
  | _, [] => []
  | i, param :: rest =>
    let param_type := asStr (pyGet param "type")
    let ui_widget := pyGet param "ui_widget"
    (if valueBEq ui_widget (.str "search") &&
        !(["category", "string/contains", "string/starts-with",
           "string/ends-with"].contains param_type) then
      ["Parameter " ++ natDec i ++ " (" ++ pyStr (pyGet param "name") ++
       "): Search widget not compatible with type '" ++ param_type ++ "'"]
    else []) ++
    (if valueBEq ui_widget (.str "dropdown") && param_type.startsWith "date/" &&
        param_type != "date/single" then
      ["Parameter " ++ natDec i ++ " (" ++ pyStr (pyGet param "name") ++
       "): Dropdown widget not compatible with date field filter type '" ++
       param_type ++ "'"]
    else []) ++
    widget_compatibility_errors (i + 1) rest

def validate_parameter_widget_compatibility (parameters : List Dict) : List String :=
  widget_compatibility_errors 0 parameters

/-- The required-default loop of `validate_enhanced_parameters`: only a missing
or `None` default is flagged. -/
def required_default_errors : Nat → List Dict → List String
  | _, [] => []
  | i, param :: rest =>
    (if truthy (pyGetD param "required" (.bool false)) &&
        (!hasKey param "default" || valueBEq (pyGet param "default") .null) then
      ["Parameter " ++ natDec i ++ " (" ++ pyStr (pyGetD param "name" (.str "unnamed")) ++
       "): required parameters must have a default value"]
    else []) ++ required_default_errors (i + 1) rest

/-- `validate_enhanced_parameters`; the `jsonschema.validate` call against the
packaged schema is external and is injected as `schemaErr` (the formatted
message of the first schema violation, if any). -/
def validate_enhanced_parameters (schemaErr : Option String) (parameters : List Dict) :
    Bool × List String :=
  match schemaErr with
  | some msg => (false, [msg])
  | none =>
    let errors := duplicate_name_errors 0 [] parameters
    let errors := errors ++ validate_parameter_widget_compatibility parameters
    let errors := errors ++ required_default_errors 0 parameters
    (errors.length == 0, errors)

/-- `validate_field_references`; the Metabase client is injected as
`tableFields` (`none` models a failed `table/{id}/query_metadata` request,
`some fields` the ids of the table's fields). -/
def validate_field_references (tableFields : Int → Option (List Int)) :
    Nat → List Dict → List String
  | _, [] => []
  | i, param :: rest =>
    (if !hasKey param "field" then []
     else
       let field_config := pyGet param "field"
       let database_id := asInt (vGet field_config "database_id")
       let table_id := asInt (vGet field_config "table_id")
       let field_id := asInt (vGet field_config "field_id")
       match tableFields table_id with
       | none =>
         ["Parameter " ++ natDec i ++ " (" ++ pyStr (pyGet param "name") ++
          "): Cannot access table " ++ intDec table_id ++ " in database " ++
          intDec database_id]
       | some fields =>
         if fields.contains field_id then []
         else
           ["Parameter " ++ natDec i ++ " (" ++ pyStr (pyGet param "name") ++
            "): Field " ++ intDec field_id ++ " not found in table " ++
            intDec table_id]) ++
    validate_field_references tableFields (i + 1) rest

/-- The processing loop of `process_enhanced_parameters`: one fresh id per
parameter (`ids` is the injected `generate_parameter_id` stream), template
tags stored under `template_tag["name"]` with dict-update semantics. -/
def process_parameters_loop (ids : Nat → String) :
    Nat → List Dict → List Dict × List (String × Dict) →
    List Dict × List (String × Dict)
  | _, [], acc => acc
  | n, param_config :: rest, acc =>
    let param_id := ids n
    let pt := process_single_parameter param_config param_id
    process_parameters_loop ids (n + 1) rest
      (acc.1 ++ [pt.1], aset acc.2 (asStr (pyGet pt.2 "name")) pt.2)

def process_enhanced_parameters (schemaErr : Option String)
    (tableFields : Int → Option (List Int)) (ids : Nat → String)
    (parameters : List Dict) : List Dict × List (String × Dict) × List String :=
  let v := validate_enhanced_parameters schemaErr parameters
  if !v.1 then ([], [], v.2)
  else
    let field_errors := validate_field_references tableFields 0 parameters
    if field_errors.length != 0 then ([], [], field_errors)
    else
      let pt := process_parameters_loop ids 0 parameters ([], [])
      (pt.1, pt.2, [])

/-- The list of processed parameters the loop appends, one
`process_single_parameter` result per input, ids drawn in order. -/
def processedFrom (ids : Nat → String) : Nat → List Dict → List Dict
  | _, [] => []
  | n, p :: rest => (process_single_parameter p (ids n)).1 :: processedFrom ids (n + 1) rest

end EP

/-- Python `repr(v)` for the values interpolated into error messages
(strings quote, `None` renders bare, numbers render decimally). -/
def pyRepr : Value → String
  | .null => "None"
  | .bool true => "True"
  | .bool false => "False"
  | .int n => intDec n
  | .str s => "'" ++ s ++ "'"
  | .list _ => "<list>"
  | .dict _ => "<dict>"

/-- Python `str(l)` for a list of values (`repr` of each element). -/
def pyReprList (l : List Value) : String :=
  "[" ++ String.intercalate ", " (l.map pyRepr) ++ "]"

/-- `type(v).__name__`. -/
def pyTypeName : Value → String
  | .null => "NoneType"
  | .bool _ => "bool"
  | .int _ => "int"
  | .str _ => "str"
  | .list _ => "list"
  | .dict _ => "dict"

/-- The elements of a value the source iterates as a list (`[]` when the value
is not a list; the schema precludes that case). -/
def vList : Value → List Value
  | .list xs => xs
  | _ => []

/-- Is the value a Python string? -/
def isStrVal : Value → Bool
  | .str _ => true
  | _ => false

/-! ## `EDP` — tools/enhanced_dashboard_parameters.py (dashboard-scoped) -/

namespace EDP

def TEXT_PARAMETER_TYPES : List String :=
  ["string/=", "string/!=", "string/contains", "string/does-not-contain",
   "string/starts-with", "string/ends-with"]

def NUMBER_PARAMETER_TYPES : List String :=
  ["number/=", "number/!=", "number/between", "number/>=", "number/<="]

def DATE_PARAMETER_TYPES : List String :=
  ["date/single", "date/range", "date/month-year", "date/quarter-year",
   "date/relative", "date/all-options"]

def MULTI_SELECT_SUPPORTED : List String :=
  ["string/=", "string/!=", "string/contains", "string/does-not-contain",
   "string/starts-with", "string/ends-with", "number/=", "number/!=", "id"]

def MULTI_SELECT_FORBIDDEN : List String :=
  ["date/single", "date/range", "date/month-year", "date/quarter-year",
   "date/relative", "date/all-options", "temporal-unit", "number/between",
   "number/>=", "number/<="]

def VALID_TEMPORAL_UNITS : List String :=
  ["minute", "hour", "day", "week", "month", "quarter", "year",
   "minute-of-hour", "hour-of-day", "day-of-week", "day-of-month",
   "day-of-year", "week-of-year", "month-of-year", "quarter-of-year"]

/-- `sorted(VALID_TEMPORAL_UNITS)` as Python prints it inside the error
messages. -/
def sortedTemporalUnitsRepr : String :=
  "['day', 'day-of-month', 'day-of-week', 'day-of-year', 'hour', " ++
  "'hour-of-day', 'minute', 'minute-of-hour', 'month', 'month-of-year', " ++
  "'quarter', 'quarter-of-year', 'week', 'week-of-year', 'year']"

def SECTION_ID_MAPPINGS : String → Option String
  | "string/=" => some "string"
  | "string/!=" => some "string"
  | "string/contains" => some "string"
  | "string/does-not-contain" => some "string"
  | "string/starts-with" => some "string"
  | "string/ends-with" => some "string"
  | "number/=" => some "number"
  | "number/!=" => some "number"
  | "number/between" => some "number"
  | "number/>=" => some "number"
  | "number/<=" => some "number"
  | "date/single" => some "date"
  | "date/range" => some "date"
  | "date/month-year" => some "date"
  | "date/quarter-year" => some "date"
  | "date/relative" => some "date"
  | "date/all-options" => some "date"
  | "temporal-unit" => some "temporal-unit"
  | "id" => some "id"
  | _ => none

/-- `generate_slug` (identical body to the query-scoped one). -/
def generate_slug (name : String) : String := slugPy name

/-- `determine_section_id`: a truthy override wins, otherwise the table lookup
with `"string"` fallback. -/
def determine_section_id (param_type : String) (section_id_override : Value) : Value :=
  if truthy section_id_override then section_id_override
  else .str ((SECTION_ID_MAPPINGS param_type).getD "string")

/-- `validate_multi_select_compatibility` (the `param_type` argument is
`param.get("type")`, hence a raw value). -/
def validate_multi_select_compatibility (param_type : Value)
    (is_multi_select : Bool) : List String :=
  if is_multi_select &&
      (match param_type with
       | .str t => MULTI_SELECT_FORBIDDEN.contains t
       | _ => false) then
    ["Multi-select not supported for parameter type '" ++ pyStr param_type ++ "'"]
  else []

/-- `validate_temporal_units`. -/
def validate_temporal_units : List Value → List String
  | [] => []
  | unit :: rest =>
    (if (match unit with
         | .str u => VALID_TEMPORAL_UNITS.contains u
         | _ => false) then []
     else
       ["Invalid temporal unit '" ++ pyStr unit ++ "'. Valid units: " ++
        sortedTemporalUnitsRepr]) ++ validate_temporal_units rest

/-- `validate_values_source_config`. -/
def validate_values_source_config (param_config : Dict) : List String :=
  let values_source := pyGet param_config "values_source"
  if !truthy values_source then []
  else
    let source_type := vGet values_source "type"
    if valueBEq source_type (.str "static") then
      if !vHasKey values_source "values" || !truthy (vGet values_source "values") then
        ["Static values source requires non-empty 'values' array"]
      else []
    else if valueBEq source_type (.str "card") then
      (if !vHasKey values_source "card_id" then
        ["Card values source requires 'card_id'"] else []) ++
      (if !vHasKey values_source "value_field" then
        ["Card values source requires 'value_field'"] else [])
    else []

/-- `validate_default_value_format`. -/
def validate_default_value_format (param_config : Dict) : List String :=
  if !hasKey param_config "default" || valueBEq (pyGet param_config "default") .null then
    []
  else
    let param_type := asStr (pyGet param_config "type")
    let default_value := pyGet param_config "default"
    let is_multi_select := truthy (pyGetD param_config "isMultiSelect" (.bool false))
    (if is_multi_select && !isListVal default_value then
      ["Multi-select parameter default value must be an array, got " ++
       pyTypeName default_value]
    else []) ++
    (if NUMBER_PARAMETER_TYPES.contains param_type then
      if is_multi_select then
        (if !isListVal default_value ||
            !(vList default_value).all (fun v => isPyNumber v) then
          ["Number parameter with multi-select requires array of numbers as default"]
        else [])
      else if param_type == "number/between" then
        (if !isListVal default_value || (vList default_value).length != 2 then
          ["number/between parameter requires array of two numbers as default"]
        else [])
      else if !isPyNumber default_value then
        ["Number parameter requires numeric default value"]
      else []
    else if DATE_PARAMETER_TYPES.contains param_type then
      (if !isStrVal default_value then
        ["Date parameter requires string default value"]
      else [])
    else if TEXT_PARAMETER_TYPES.contains param_type || param_type == "id" then
      if is_multi_select then
        (if !isListVal default_value ||
            !(vList default_value).all (fun v => isStrVal v) then
          ["Text/ID parameter with multi-select requires array of strings as default"]
        else [])
      else if !isStrVal default_value then
        ["Text/ID parameter requires string default value"]
      else []
    else if param_type == "temporal-unit" then
      (if !isStrVal default_value ||
          !VALID_TEMPORAL_UNITS.contains (asStr default_value) then
        ["temporal-unit parameter requires valid temporal unit as default. " ++
         "Valid units: " ++ sortedTemporalUnitsRepr]
      else [])
    else [])

/-- `process_static_values`: every value (numeric or not) is stringified and
wrapped in a singleton array. -/
def process_static_values (values : List Value) (_param_type : String) : List Value :=
  values.map (fun v => .list [.str (pyStr v)])

/-- `build_values_source_config` (dashboard variant). -/
def build_values_source_config (param_config : Dict) : Option String × Option Dict :=
  let values_source := pyGet param_config "values_source"
  if !truthy values_source then (none, none)
  else
    let source_type := vGet values_source "type"
    let param_type := asStr (pyGet param_config "type")
    if valueBEq source_type (.str "static") then
      let values := vList (vGet values_source "values")
      (some "static-list", some [("values", .list (process_static_values values param_type))])
    else if valueBEq source_type (.str "card") then
      let config : Dict :=
        [("card_id", vGet values_source "card_id"),
         ("value_field", .list [.str "field", vGet values_source "value_field",
            .dict [("base-type", .str "type/Text")]])]
      let config :=
        if vHasKey values_source "label_field" then
          dset config "label_field" (.list [.str "field", vGet values_source "label_field",
            .dict [("base-type", .str "type/Text")]])
        else config
      (some "card", some config)
    else if valueBEq source_type (.str "connected") then (none, some [])
    else (none, none)

/-- `determine_values_query_type`: static → list, card → search,
connected → list, anything else (including no source) → none. -/
def determine_values_query_type (param_config : Dict) : String :=
  let values_source := pyGet param_config "values_source"
  if !truthy values_source then "none"
  else
    let source_type := vGet values_source "type"
    if valueBEq source_type (.str "static") then "list"
    else if valueBEq source_type (.str "card") then "search"
    else if valueBEq source_type (.str "connected") then "list"
    else "none"

/-- `process_single_dashboard_parameter`.  The random id generator is the
injected candidate stream `genStep`; a falsy configured id triggers
generation with collision retry against `existing_ids` (modelled as a list
used with set semantics). -/
def process_single_dashboard_parameter (genStep : Nat → String)
    (param_config : Dict) (existing_ids : List String) : Dict × List String :=
  let param_name := pyGet param_config "name"
  let param_type := asStr (pyGet param_config "type")
  let pid := pyGet param_config "id"
  let param_id :=
    if truthy pid then asStr pid
    else searchFrom genStep existing_ids 0 (existing_ids.length + 1)
  let existing_ids := existing_ids ++ [param_id]
  let section_id_override := pyGet param_config "sectionId"
  let section_id :=
    if param_type == "string/=" && valueBEq section_id_override (.str "location") then
      Value.str "location"
    else determine_section_id param_type section_id_override
  let processed_param : Dict :=
    [("id", .str param_id),
     ("name", param_name),
     ("slug", .str (generate_slug (asStr param_name))),
     ("type", .str param_type),
     ("sectionId", section_id)]
  let processed_param :=
    if hasKey param_config "required" then
      dset processed_param "required" (pyGet param_config "required")
    else processed_param
  let processed_param :=
    if hasKey param_config "default" && !valueBEq (pyGet param_config "default") .null then
      dset processed_param "default" (pyGet param_config "default")
    else processed_param
  let processed_param :=
    if hasKey param_config "isMultiSelect" then
      dset processed_param "isMultiSelect" (pyGet param_config "isMultiSelect")
    else processed_param
  let processed_param :=
    if param_type == "temporal-unit" && hasKey param_config "temporal_units" then
      dset processed_param "temporal_units" (pyGet param_config "temporal_units")
    else processed_param
  let values_query_type := determine_values_query_type param_config
  let processed_param := dset processed_param "values_query_type" (.str values_query_type)
  let processed_param :=
    if values_query_type == "list" || values_query_type == "search" then
      let vsc := build_values_source_config param_config
      let processed_param :=
        match vsc.1 with
        | some t => dset processed_param "values_source_type" (.str t)
        | none => processed_param
      match vsc.2 with
      | some c => dset processed_param "values_source_config" (.dict c)
      | none => processed_param
    else processed_param
  (processed_param, existing_ids)

/-- The duplicate-name / reserved-name loop of
`validate_enhanced_dashboard_parameters`. -/
def dup_tab_errors : Nat → List Value → List Dict → List String
  | _, _, [] => []
  | i, seen_names, param :: rest =>
    let name := pyGet param "name"
    (if truthy name && pyMem name seen_names then
      ["Parameter " ++ natDec i ++ ": duplicate name '" ++ pyStr name ++ "'"]
    else []) ++
    (if valueBEq name (.str "tab") then
      ["Parameter " ++ natDec i ++ ": name 'tab' is reserved and cannot be used"]
    else []) ++
    dup_tab_errors (i + 1)
      (if truthy name && !pyMem name seen_names then seen_names ++ [name] else seen_names)
      rest

/-- One parameter's share of the per-parameter validation loop: multi-select,
temporal-units, values-source, default-format and required-default checks, each
error prefixed with the parameter index and name. -/
def single_param_errors (i : Nat) (param : Dict) : List String :=
  let param_name := pyStr (pyGetD param "name" (.str ("parameter_" ++ natDec i)))
  let param_type := pyGet param "type"
  let pre := "Parameter " ++ natDec i ++ " (" ++ param_name ++ "): "
  let is_multi_select := truthy (pyGetD param "isMultiSelect" (.bool false))
  ((validate_multi_select_compatibility param_type is_multi_select).map (pre ++ ·)) ++
  (if valueBEq param_type (.str "temporal-unit") then
    let temporal_units := pyGetD param "temporal_units" (.list [])
    if !truthy temporal_units then
      [pre ++ "temporal-unit parameter requires non-empty temporal_units array"]
    else (validate_temporal_units (vList temporal_units)).map (pre ++ ·)
  else []) ++
  ((validate_values_source_config param).map (pre ++ ·)) ++
  ((validate_default_value_format param).map (pre ++ ·)) ++
  (if truthy (pyGetD param "required" (.bool false)) then
    if !hasKey param "default" || valueBEq (pyGet param "default") .null then
      [pre ++ "required parameters must have a default value"]
    else if isListVal (pyGet param "default") && (vList (pyGet param "default")).isEmpty then
      [pre ++ "required parameters must have a non-empty default value"]
    else if valueBEq (pyGet param "default") (.str "") then
      [pre ++ "required parameters must have a non-empty default value"]
    else []
  else [])

/-- The per-parameter validation loop. -/
def per_param_errors : Nat → List Dict → List String
  | _, [] => []
  | i, param :: rest => single_param_errors i param ++ per_param_errors (i + 1) rest

/-- `validate_enhanced_dashboard_parameters`; `jsonschema.validate` against the
packaged schema is injected as `schemaErr`. -/
def validate_enhanced_dashboard_parameters (schemaErr : Option String)
    (parameters : List Dict) : Bool × List String :=
  match schemaErr with
  | some msg => (false, [msg])
  | none =>
    let errors := dup_tab_errors 0 [] parameters
    let errors := errors ++ per_param_errors 0 parameters
    (errors.length == 0, errors)

/-- `validate_card_references`; the Metabase client is injected as `cardMeta`
(`.error e` models a failed `card/{id}` request with error text `e`,
`.ok rm` the card's `result_metadata` entries). -/
def validate_card_references (cardMeta : Int → Except String (List Dict)) :
    Nat → List Dict → List String
  | _, [] => []
  | i, param :: rest =>
    (let values_source := pyGet param "values_source"
     if !truthy values_source || !valueBEq (vGet values_source "type") (.str "card") then
       []
     else
       let card_id := vGet values_source "card_id"
       if !truthy card_id then []
       else
         let param_name := pyStr (pyGetD param "name" (.str ("parameter_" ++ natDec i)))
         match cardMeta (asInt card_id) with
         | .error e =>
           ["Parameter " ++ natDec i ++ " (" ++ param_name ++
            "): Cannot access card " ++ pyStr card_id ++
            " for values source - " ++ e]
         | .ok result_metadata =>
           if result_metadata.isEmpty then
             ["Parameter " ++ natDec i ++ " (" ++ param_name ++ "): Card " ++
              pyStr card_id ++
              " has no result metadata. Run the card first to use it as a values source."]
           else
             let field_names := result_metadata.map (fun f => pyGet f "name")
             (let value_field := vGet values_source "value_field"
              if truthy value_field && !pyMem value_field field_names then
                ["Parameter " ++ natDec i ++ " (" ++ param_name ++ "): Field '" ++
                 pyStr value_field ++ "' not found in card " ++ pyStr card_id ++
                 ". Available fields: " ++ pyReprList field_names]
              else []) ++
             (let label_field := vGet values_source "label_field"
              if truthy label_field && !pyMem label_field field_names then
                ["Parameter " ++ natDec i ++ " (" ++ param_name ++ "): Label field '" ++
                 pyStr label_field ++ "' not found in card " ++ pyStr card_id ++
                 ". Available fields: " ++ pyReprList field_names]
              else [])) ++
    validate_card_references cardMeta (i + 1) rest

/-- The processing loop of `process_enhanced_dashboard_parameters`
(`genSteps i` is the candidate stream for the i-th parameter). -/
def process_dashboard_loop (genSteps : Nat → Nat → String) :
    Nat → List Dict → List Dict × List String → List Dict × List String
  | _, [], acc => acc
  | i, param_config :: rest, acc =>
    let r := process_single_dashboard_parameter (genSteps i) param_config acc.2
    process_dashboard_loop genSteps (i + 1) rest (acc.1 ++ [r.1], r.2)

def process_enhanced_dashboard_parameters (schemaErr : Option String)
    (cardMeta : Int → Except String (List Dict)) (genSteps : Nat → Nat → String)
    (parameters : List Dict) : List Dict × List String :=
  let v := validate_enhanced_dashboard_parameters schemaErr parameters
  if !v.1 then ([], v.2)
  else
    let card_errors := validate_card_references cardMeta 0 parameters
    if card_errors.length != 0 then ([], card_errors)
    else
      let r := process_dashboard_loop genSteps 0 parameters ([], [])
      (r.1, [])

end EDP

/-- `v is True` (Python identity test against the singleton `True`). -/
def isTrueVal : Value → Bool
  | .bool true => true
  | _ => false

/-! ## `CP` — tools/card_parameters.py -/

namespace CP

/-- `generate_slug_from_name` (same body as `generate_slug`). -/
def generate_slug_from_name (name : String) : String := slugPy name

/-- The slug candidates tried by the dedup loop of `process_card_parameters`:
the base slug first, then `base_1`, `base_2`, …. -/
def slug_candidate (base : String) : Nat → String
  | 0 => base
  | k + 1 => base ++ "_" ++ natDec (k + 1)

/-- The body of `process_card_parameters` (one parameter).  `gen` is the
injected `generate_parameter_id` stream for this step; the state is
`(existing_ids, existing_slugs)`. -/
def process_one_card_parameter (gen : Nat → String) (param : Dict)
    (existing_ids existing_slugs : List String) :
    Dict × List String × List String :=
  let processed_param := param
  let processed_param :=
    if !hasKey processed_param "id" || !truthy (pyGet processed_param "id") then
      dset processed_param "id"
        (.str (searchFrom gen existing_ids 0 (existing_ids.length + 1)))
    else processed_param
  let sp :=
    if hasKey processed_param "name" then
      let base_slug := generate_slug_from_name (asStr (pyGet processed_param "name"))
      let slug := searchFrom (slug_candidate base_slug) existing_slugs 0
        (existing_slugs.length + 1)
      (dset processed_param "slug" (.str slug), existing_slugs ++ [slug])
    else (processed_param, existing_slugs)
  let processed_param := sp.1
  let existing_slugs := sp.2
  let processed_param :=
    if !hasKey processed_param "target" then
      dset processed_param "target"
        (.list [.str "variable",
          .list [.str "template-tag", pyGetD processed_param "slug" (.str "parameter")]])
    else processed_param
  (processed_param, existing_ids ++ [asStr (pyGet processed_param "id")], existing_slugs)

/-- The loop of `process_card_parameters` (`gen n` is the candidate stream for
the n-th parameter). -/
def process_card_parameters_loop (gen : Nat → Nat → String) :
    Nat → List Dict → List Dict × List String × List String →
    List Dict × List String × List String
  | _, [], acc => acc
  | n, param :: rest, acc =>
    let r := process_one_card_parameter (gen n) param acc.2.1 acc.2.2
    process_card_parameters_loop gen (n + 1) rest (acc.1 ++ [r.1], r.2.1, r.2.2)

def process_card_parameters (gen : Nat → Nat → String) (parameters : List Dict) :
    List Dict :=
  (process_card_parameters_loop gen 0 parameters ([], [], [])).1

end CP

/-! ## `P` — tools/parameters.py -/

namespace P

/-- The per-parameter business-rule loop of `validate_parameters`, carrying
the `seen_ids` and `seen_names` sets.  Note that, as in the source, the
duplicate-name check and the `seen_names` update are nested inside the
`name == "tab"` branch. -/
def validate_errors : Nat → List Value → List Value → List Dict → List String
  | _, _, _, [] => []
  | i, seen_ids, seen_names, param :: rest =>
    let idv := pyGet param "id"
    let hasId := hasKey param "id" && truthy idv
    let namev := pyGet param "name"
    let isTab := hasKey param "name" && valueBEq namev (.str "tab")
    (if !hasKey param "name" then
      ["Parameter " ++ natDec i ++ ": missing required field 'name'"] else []) ++
    (if !hasKey param "type" then
      ["Parameter " ++ natDec i ++ ": missing required field 'type'"] else []) ++
    (if hasId && pyMem idv seen_ids then
      ["Parameter " ++ natDec i ++ ": duplicate ID '" ++ pyStr idv ++ "'"] else []) ++
    (if isTab then
      ["Parameter " ++ natDec i ++ ": name cannot be 'tab' (reserved for dashboard tabs)"]
        ++
      (if pyMem namev seen_names then
        ["Parameter " ++ natDec i ++ ": duplicate name '" ++ pyStr namev ++ "'"]
      else [])
    else []) ++
    (if hasKey param "value" && !valueBEq (pyGet param "value") .null then
      let param_type := asStr (pyGetD param "type" (.str ""))
      let value := pyGet param "value"
      if param_type.startsWith "date/" && !(isStrVal value || isListVal value) then
        ["Parameter " ++ natDec i ++ ": date parameter value should be string or array"]
      else if param_type.startsWith "number/" &&
          !(isPyNumber value || (isListVal value && (vList value).all isPyNumber)) then
        ["Parameter " ++ natDec i ++
         ": number parameter value should be number or array of numbers"]
      else []
    else []) ++
    (if hasKey param "type" && valueBEq (pyGet param "type") (.str "temporal-unit") &&
        hasKey param "sectionId" then
      (if !valueBEq (pyGet param "sectionId") (.str "temporal-unit") then
        ["Parameter " ++ natDec i ++
         ": temporal-unit parameter must have sectionId='temporal-unit'"]
      else []) ++
      (if !hasKey param "temporal_units" || !isListVal (pyGet param "temporal_units") ||
          (vList (pyGet param "temporal_units")).isEmpty then
        ["Parameter " ++ natDec i ++
         ": temporal-unit parameter must have non-empty temporal_units array"]
      else [])
    else []) ++
    (if hasKey param "type" && hasKey param "isMultiSelect" &&
        isTrueVal (pyGet param "isMultiSelect") &&
        (match pyGet param "type" with
         | .str t => ["string/contains", "string/does-not-contain",
             "string/starts-with", "string/ends-with"].contains t
         | _ => false) then
      ["Parameter " ++ natDec i ++ ": isMultiSelect cannot be true for type '" ++
       pyStr (pyGet param "type") ++ "'"]
    else []) ++
    (if hasKey param "required" && isTrueVal (pyGet param "required") then
      if !hasKey param "default" || valueBEq (pyGet param "default") .null ||
          valueBEq (pyGet param "default") (.str "") ||
          (isListVal (pyGet param "default") && (vList (pyGet param "default")).isEmpty) then
        ["Parameter " ++ natDec i ++ ": required parameter must have a non-empty default value"]
      else []
    else []) ++
    validate_errors (i + 1)
      (if hasId && !pyMem idv seen_ids then seen_ids ++ [idv] else seen_ids)
      (if isTab && !pyMem namev seen_names then seen_names ++ [namev] else seen_names)
      rest

/-- `validate_parameters`; `jsonschema.validate` against the packaged schema
is injected as `schemaErr`. -/
def validate_parameters (schemaErr : Option String) (parameters : List Dict) :
    Bool × List String :=
  match schemaErr with
  | some msg => (false, [msg])
  | none =>
    let errors := validate_errors 0 [] [] parameters
    if errors.length != 0 then (false, errors) else (true, [])

end P

/-! ## `DC` — tools/dashcards.py (parameter-mapping linker) -/

namespace DC

/-- `{param["name"]: param for param in dashboard_parameters}` — `none` models
the `KeyError` on a parameter without a (string) name. -/
def by_name_strict : List Dict → List (String × Dict) → Option (List (String × Dict))
  | [], acc => some acc
  | p :: rest, acc =>
    match dget p "name" with
    | some (.str s) => by_name_strict rest (aset acc s p)
    | _ => none

/-- The guarded comprehension
`{param.get(k, ""): param for param in card_parameters if k in param}`;
parameters whose `k` value is not a string are omitted (a string lookup can
never hit a non-string Python dict key). -/
def by_key_guarded (k : String) : List Dict → List (String × Dict) →
    List (String × Dict)
  | [], acc => acc
  | p :: rest, acc =>
    by_key_guarded k rest
      (if hasKey p k then
        match pyGet p k with
        | .str s => aset acc s p
        | _ => acc
      else acc)

/-- One `{dashboard_parameter_name, card_parameter_name}` pair of dashcard `i`
at pair index `j`: returns the (possibly empty) list of produced Metabase
mappings and the (possibly empty) list of errors; `none` models a `KeyError`
on malformed input. -/
def process_mapping (i j : Nat) (card_id : Value)
    (dashboard_param_by_name by_name by_slug : List (String × Dict))
    (mapping : Dict) : Option (List Value × List String) :=
  match dget mapping "dashboard_parameter_name", dget mapping "card_parameter_name" with
  | some dpn, some cpn =>
    let dashboard_param := match dpn with | .str s => aget dashboard_param_by_name s | _ => none
    match dashboard_param with
    | none =>
      some ([], ["Dashcard " ++ natDec i ++ " mapping " ++ natDec j ++
        ": Dashboard parameter '" ++ pyStr dpn ++ "' not found"])
    | some dp =>
      -- Python `a or b`: the name hit wins unless it is falsy (empty dict)
      let nameHit := match cpn with | .str s => aget by_name s | _ => none
      let slugHit := match cpn with | .str s => aget by_slug s | _ => none
      let card_param :=
        match nameHit with
        | some d => if d.isEmpty then slugHit else some d
        | none => slugHit
      match card_param with
      | none =>
        some ([], ["Dashcard " ++ natDec i ++ " mapping " ++ natDec j ++
          ": Card parameter '" ++ pyStr cpn ++ "' not found in card " ++ pyStr card_id])
      | some cp =>
        if cp.isEmpty then
          some ([], ["Dashcard " ++ natDec i ++ " mapping " ++ natDec j ++
            ": Card parameter '" ++ pyStr cpn ++ "' not found in card " ++ pyStr card_id])
        else
          match dget dp "id", dget cp "target" with
          | some pid, some tgt =>
            some ([.dict [("card_id", card_id), ("parameter_id", pid), ("target", tgt)]],
              [])
          | _, _ => none
  | _, _ => none

/-- The inner pair loop of one dashcard. -/
def mappings_loop (i : Nat) (card_id : Value)
    (dashboard_param_by_name by_name by_slug : List (String × Dict)) :
    Nat → List Value → List Value × List String → Option (List Value × List String)
  | _, [], acc => some acc
  | j, mv :: rest, acc =>
    match mv with
    | .dict mapping =>
      match process_mapping i j card_id dashboard_param_by_name by_name by_slug mapping with
      | none => none
      | some r =>
        mappings_loop i card_id dashboard_param_by_name by_name by_slug (j + 1) rest
          (acc.1 ++ r.1, acc.2 ++ r.2)
    | _ => none

/-- One dashcard of `process_parameter_mappings`. -/
def process_dashcard (dashboard_param_by_name : List (String × Dict))
    (card_parameters_by_card : Int → List Dict) (i : Nat) (dashcard : Dict) :
    Option (Dict × List String) :=
  match dget dashcard "card_id" with
  | none => none
  | some card_id =>
    if hasKey dashcard "parameter_mappings" && truthy (pyGet dashcard "parameter_mappings")
    then
      let card_parameters := match card_id with | .int n => card_parameters_by_card n | _ => []
      let by_name := by_key_guarded "name" card_parameters []
      let by_slug := by_key_guarded "slug" card_parameters []
      match mappings_loop i card_id dashboard_param_by_name by_name by_slug 0
          (vList (pyGet dashcard "parameter_mappings")) ([], []) with
      | none => none
      | some r => some (dset dashcard "parameter_mappings" (.list r.1), r.2)
    else some (dashcard, [])

/-- The dashcard loop of `process_parameter_mappings`. -/
def dashcards_loop (dashboard_param_by_name : List (String × Dict))
    (card_parameters_by_card : Int → List Dict) :
    Nat → List Dict → List Dict × List String → Option (List Dict × List String)
  | _, [], acc => some acc
  | i, dashcard :: rest, acc =>
    match process_dashcard dashboard_param_by_name card_parameters_by_card i dashcard with
    | none => none
    | some r =>
      dashcards_loop dashboard_param_by_name card_parameters_by_card (i + 1) rest
        (acc.1 ++ [r.1], acc.2 ++ r.2)

/-- `process_parameter_mappings` (the Metabase client argument only feeds
`card_parameters_by_card`, which is injected directly). -/
def process_parameter_mappings (dashcards : List Dict)
    (dashboard_parameters : List Dict)
    (card_parameters_by_card : Int → List Dict) : Option (List Dict × List String) :=
  match by_name_strict dashboard_parameters [] with
  | none => none
  | some dashboard_param_by_name =>
    dashcards_loop dashboard_param_by_name card_parameters_by_card 0 dashcards ([], [])

/-- The pair-by-pair resolution of one dashcard's mappings, without the
accumulator: produced mappings and errors of each pair, concatenated in pair
order. -/
def mappings_of (i : Nat) (card_id : Value)
    (dashboard_param_by_name by_name by_slug : List (String × Dict)) :
    Nat → List Value → Option (List Value × List String)
  | _, [] => some ([], [])
  | j, mv :: rest =>
    match mv with
    | .dict mapping =>
      match process_mapping i j card_id dashboard_param_by_name by_name by_slug mapping,
          mappings_of i card_id dashboard_param_by_name by_name by_slug (j + 1) rest with
      | some r, some rs => some (r.1 ++ rs.1, r.2 ++ rs.2)
      | _, _ => none
    | _ => none

end DC

/-! ## Random identifier formats (C6)

`uuid.uuid4()` (Python standard library, outside this repository) and
`random.choices(string.ascii_letters + string.digits, k=8)` are modelled over
injected random sources. -/

/-- The lowercase hexadecimal digit for `n < 16`. -/
def hexChar (n : Nat) : Char :=
  if n < 10 then digitChar n
  else match n with
    | 10 => 'a' | 11 => 'b' | 12 => 'c' | 13 => 'd' | 14 => 'e' | _ => 'f'

/-- Two hex digits of a byte. -/
def byteHex (n : Nat) : List Char := [hexChar (n / 16 % 16), hexChar (n % 16)]

/-- Modelled from the spec: `str(uuid.uuid4())` — the standard library is not
part of this repository.  RFC 4122 version 4: sixteen random bytes (drawn from
the injected source `b`, reduced mod 256), with the version nibble of byte 6
forced to `4` and the two top bits of byte 8 forced to `10`, rendered as
lowercase hex in 8-4-4-4-12 groups. -/
def uuid4_string (b : Nat → Nat) : String :=
  let B := fun i => b i % 256
  let b6 := (B 6 &&& 0x0F) ||| 0x40
  let b8 := (B 8 &&& 0x3F) ||| 0x80
  ⟨byteHex (B 0) ++ byteHex (B 1) ++ byteHex (B 2) ++ byteHex (B 3) ++ ['-'] ++
   byteHex (B 4) ++ byteHex (B 5) ++ ['-'] ++
   byteHex b6 ++ byteHex (B 7) ++ ['-'] ++
   byteHex b8 ++ byteHex (B 9) ++ ['-'] ++
   byteHex (B 10) ++ byteHex (B 11) ++ byteHex (B 12) ++ byteHex (B 13) ++
   byteHex (B 14) ++ byteHex (B 15)⟩

/-- `string.ascii_letters + string.digits`. -/
def ALNUM_ALPHABET : List Char :=
  "abcdefghijklmnopqrstuvwxyzABCDEFGHIJKLMNOPQRSTUVWXYZ0123456789".data

/-- `''.join(random.choices(string.ascii_letters + string.digits, k=8))` over
an injected stream of picks: the n-th generated dashboard id uses picks
`8n, …, 8n+7`. -/
def dashboard_id (picks : Nat → Fin 62) (n : Nat) : String :=
  ⟨(List.range 8).map (fun r => ALNUM_ALPHABET.get ((picks (8 * n + r)).cast (by rfl)))⟩

/-- Is the character a lowercase hexadecimal digit? -/
def isHexDigitChar (c : Char) : Bool :=
  ('0' ≤ c && c ≤ '9') || ('a' ≤ c && c ≤ 'f')

/-- Canonical textual form of an RFC 4122 version-4 UUID: lowercase hex in
8-4-4-4-12 groups, version nibble `4`, variant nibble in `8, 9, a, b`. -/
def looksLikeUuid4 (s : String) : Bool :=
  match s.data with
  | a1 :: a2 :: a3 :: a4 :: a5 :: a6 :: a7 :: a8 :: '-' ::
    b1 :: b2 :: b3 :: b4 :: '-' ::
    c1 :: c2 :: c3 :: c4 :: '-' ::
    d1 :: d2 :: d3 :: d4 :: '-' ::
    e1 :: e2 :: e3 :: e4 :: e5 :: e6 :: e7 :: e8 :: e9 :: e10 :: e11 ::
    e12 :: [] =>
    [a1, a2, a3, a4, a5, a6, a7, a8, b1, b2, b3, b4, c1, c2, c3, c4,
     d1, d2, d3, d4, e1, e2, e3, e4, e5, e6, e7, e8, e9, e10, e11,
     e12].all isHexDigitChar &&
    c1 == '4' && (d1 == '8' || d1 == '9' || d1 == 'a' || d1 == 'b')
  | _ => false

/-! ## Heap model (C10)

`process_parameters` and `process_card_parameters` receive a list of
references to caller-owned dictionaries.  To state the frame property ("the
caller's dictionaries are not mutated") the dictionaries live in an explicit
heap; `param.copy()` allocates a fresh cell and all writes go to it. -/

structure Heap where
  mem : Nat → Dict
  nxt : Nat

/-- Allocate a fresh cell holding `d` (models `param.copy()`). -/
def halloc (h : Heap) (d : Dict) : Heap × Nat :=
  (⟨fun a => if a = h.nxt then d else h.mem a, h.nxt + 1⟩, h.nxt)

/-- `heap[a][k] = v`. -/
def hwrite (h : Heap) (a : Nat) (k : String) (v : Value) : Heap :=
  ⟨fun b => if b = a then dset (h.mem b) k v else h.mem b, h.nxt⟩

namespace P

/-- Heap-level `process_parameters`: for each referenced parameter dict, copy
it into a fresh cell, generate an id into the copy when absent or falsy
(collision-retried against `existing_ids`), and track ids and names; the
state is `(heap, out_addrs, existing_ids, existing_names)`. -/
def process_parameters_heap (gen : Nat → Nat → String) :
    Nat → Heap → List Nat → List Nat → List String → List Value →
    Heap × List Nat
  | _, h, [], out, _, _ => (h, out)
  | n, h, a :: rest, out, existing_ids, existing_names =>
    let param := h.mem a
    let al := halloc h param
    let h := al.1
    let a' := al.2
    let h :=
      if !hasKey (h.mem a') "id" || !truthy (pyGet (h.mem a') "id") then
        hwrite h a' "id"
          (.str (searchFrom (gen n) existing_ids 0 (existing_ids.length + 1)))
      else h
    let existing_ids := existing_ids ++ [asStr (pyGet (h.mem a') "id")]
    let existing_names :=
      if hasKey (h.mem a') "name" then existing_names ++ [pyGet (h.mem a') "name"]
      else existing_names
    process_parameters_heap gen (n + 1) h rest (out ++ [a']) existing_ids existing_names

end P

namespace CP

/-- Heap-level `process_card_parameters`: copy each referenced dict into a
fresh cell, then write the generated id, slug and target into the copy; the
state is `(heap, out_addrs, existing_ids, existing_slugs)`. -/
def process_card_parameters_heap (gen : Nat → Nat → String) :
    Nat → Heap → List Nat → List Nat → List String → List String →
    Heap × List Nat
  | _, h, [], out, _, _ => (h, out)
  | n, h, a :: rest, out, existing_ids, existing_slugs =>
    let param := h.mem a
    let al := halloc h param
    let h := al.1
    let a' := al.2
    let h :=
      if !hasKey (h.mem a') "id" || !truthy (pyGet (h.mem a') "id") then
        hwrite h a' "id"
          (.str (searchFrom (gen n) existing_ids 0 (existing_ids.length + 1)))
      else h
    let sl :=
      if hasKey (h.mem a') "name" then
        let base_slug := generate_slug_from_name (asStr (pyGet (h.mem a') "name"))
        let slug := searchFrom (slug_candidate base_slug) existing_slugs 0
          (existing_slugs.length + 1)
        (hwrite h a' "slug" (.str slug), existing_slugs ++ [slug])
      else (h, existing_slugs)
    let h := sl.1
    let existing_slugs := sl.2
    let h :=
      if !hasKey (h.mem a') "target" then
        hwrite h a' "target"
          (.list [.str "variable",
            .list [.str "template-tag", pyGetD (h.mem a') "slug" (.str "parameter")]])
      else h
    let existing_ids := existing_ids ++ [asStr (pyGet (h.mem a') "id")]
    process_card_parameters_heap gen (n + 1) h rest (out ++ [a']) existing_ids
      existing_slugs

end CP

/-- Scenario A of the specification: the query-scoped input
`{name: "order_status", type: category, default: "pending",
ui_widget: dropdown, values_source: static(["pending", "shipped"])}`. -/
def scenarioA : Dict :=
  [("name", .str "order_status"),
   ("type", .str "category"),
   ("default", .str "pending"),
   ("ui_widget", .str "dropdown"),
   ("values_source", .dict [("type", .str "static"),
      ("values", .list [.str "pending", .str "shipped"])])]

/-- A minimal well-formed query-scoped parameter batch (used to witness the
batch-level theorems on concrete input). -/
def cfgSimple : Dict :=
  [("name", .str "order_status"), ("type", .str "category")]

/-- A query-scoped parameter that is `required` with an **empty-string**
default. -/
def cfgRequiredEmpty : Dict :=
  [("name", .str "status"), ("type", .str "category"),
   ("required", .bool true), ("default", .str "")]

/-- A query-scoped parameter that is `required` with no default at all. -/
def cfgRequiredMissing : Dict :=
  [("name", .str "status"), ("type", .str "category"), ("required", .bool true)]

/-- A dashboard-scoped parameter that is `required` with no default. -/
def dashRequiredMissing : Dict :=
  [("name", .str "Status"), ("type", .str "string/="), ("required", .bool true)]

/-- A dashboard-scoped parameter with a static values source. -/
def dashStatic : Dict :=
  [("name", .str "Status"), ("type", .str "string/="),
   ("values_source", .dict [("type", .str "static"),
      ("values", .list [.str "a", .str "b"])])]

/-- A query-scoped parameter carrying a static values source but no
`ui_widget`. -/
def cfgStaticNoWidget : Dict :=
  [("name", .str "order_status"), ("type", .str "category"),
   ("values_source", .dict [("type", .str "static"),
      ("values", .list [.str "pending"])])]

/-- A batch whose two names collide after slugification. -/
def dupSlugParams : List Dict :=
  [[("name", .str "My Param"), ("type", .str "category")],
   [("name", .str "my param"), ("type", .str "category")]]

/-- Two dashboard parameters with the same name. -/
def dupNameParams : List Dict :=
  [[("name", .str "a"), ("type", .str "string/=")],
   [("name", .str "a"), ("type", .str "string/=")]]

/-- A dashboard parameter named `tab`. -/
def tabParams : List Dict :=
  [[("name", .str "tab"), ("type", .str "string/=")]]

/-- Two dashboard parameter configs without ids. -/
def twoDashParams : List Dict :=
  [[("name", .str "P one"), ("type", .str "string/=")],
   [("name", .str "P two"), ("type", .str "string/=")]]

/-- Scenario D: the compiled dashboard parameter `"Date Range"` with id `d1`. -/
def scenDDashboardParams : List Dict :=
  [[("name", .str "Date Range"), ("id", .str "d1"), ("type", .str "date/range"),
    ("slug", .str "date_range")]]

/-- Scenario D: query 42's compiled parameter `date_filter` with a dimension
target. -/
def scenDCardParams : Int → List Dict := fun n =>
  if n = 42 then
    [[("name", .str "date_filter"), ("id", .str "q1"), ("slug", .str "date_filter"),
      ("target", .list [.str "dimension", .list [.str "template-tag", .str "date_filter"]])]]
  else []

/-- Scenario D: the dashcard carrying the name-based mapping. -/
def scenDDashcards : List Dict :=
  [[("card_id", .int 42), ("col", .int 0), ("row", .int 0),
    ("parameter_mappings", .list [.dict
      [("dashboard_parameter_name", .str "Date Range"),
       ("card_parameter_name", .str "date_filter")]])]]

/-- Scenario D: the dimension target of query 42's `date_filter` parameter. -/
def scenDTarget : Value :=
  .list [.str "dimension", .list [.str "template-tag", .str "date_filter"]]

/-- Scenario D: the compiled dashboard parameter dict. -/
def scenDDp : Dict :=
  [("name", .str "Date Range"), ("id", .str "d1"), ("type", .str "date/range"),
   ("slug", .str "date_range")]

/-- Scenario D: query 42's compiled parameter dict. -/
def scenDCp : Dict :=
  [("name", .str "date_filter"), ("id", .str "q1"), ("slug", .str "date_filter"),
   ("target", scenDTarget)]

/-- A one-cell heap for the frame-property witnesses. -/
def testHeap : Heap :=
  ⟨fun a => if a = 0 then [("name", .str "x")] else [], 1⟩

/-! ## Theorems -/

theorem aget_aset_self {α : Type} (d : List (String × α)) (k : String) (v : α) :
    aget (aset d k v) k = some v := by
  induction d with
  | nil => simp [aset, aget]
  | cons p rest ih =>
    by_cases hp : p.1 = k
    · simp [aset, aget, hp]
    · simp [aset, aget, hp, ih]

theorem aget_aset_ne {α : Type} (d : List (String × α)) (k k' : String) (v : α)
    (hne : k ≠ k') : aget (aset d k v) k' = aget d k' := by
  induction d with
  | nil => simp [aset, aget, hne]
  | cons p rest ih =>
    by_cases hp : p.1 = k
    · simp [aset, aget, hp, hne, ih]
    · by_cases hp' : p.1 = k'
      · simp [aset, aget, hp, hp', Ne.symm hne]
      · simp [aset, aget, hp, hp', ih]

/-- `k in d` for a Python dict. -/

theorem dget_dset_self (d : Dict) (k : String) (v : Value) :
    dget (dset d k v) k = some v := aget_aset_self d k v

theorem dget_dset_ne (d : Dict) (k k' : String) (v : Value) (hne : k ≠ k') :
    dget (dset d k v) k' = dget d k' := aget_aset_ne d k k' v hne

theorem charDigit_digitChar {d : Nat} (h : d < 10) : charDigit (digitChar d) = d := by
  interval_cases d <;> rfl

theorem decVal_append_digit (cs : List Char) (c : Char) :
    decVal (cs ++ [c]) = decVal cs * 10 + charDigit c := by
  simp [decVal, List.foldl_append]

theorem decVal_natDecAux : ∀ fuel n, n < fuel → decVal (natDecAux fuel n) = n := by
  intro fuel
  induction fuel with
  | zero => intro n h; omega
  | succ f ih =>
    intro n h
    unfold natDecAux
    by_cases h10 : n < 10
    · simp only [if_pos h10]
      simp [decVal, charDigit_digitChar h10]
    · simp only [if_neg h10]
      rw [decVal_append_digit]
      have h1 : n / 10 < n := Nat.div_lt_self (by omega) (by omega)
      rw [ih (n / 10) (by omega), charDigit_digitChar (Nat.mod_lt _ (by omega))]
      omega

theorem natDec_injective : Function.Injective natDec := by
  intro a b hab
  have hdata : natDecAux (a + 1) a = natDecAux (b + 1) b := congrArg String.data hab
  have := congrArg decVal hdata
  rwa [decVal_natDecAux _ a (Nat.lt_succ_self a),
       decVal_natDecAux _ b (Nat.lt_succ_self b)] at this

/-- Python `str(n)` for an integer. -/

theorem not_alnum_of_pySpace {c : Char} (h : isPySpace c = true) :
    isAlnumChar c = false := by
  simp only [isPySpace, Bool.or_eq_true, beq_iff_eq] at h
  rcases h with ((((h | h) | h) | h) | h) | h <;> subst h <;> decide

theorem dropWhile_append_singleton (p : Char → Bool) (l : List Char) (c : Char) :
    (l ++ [c]).dropWhile p =
      if (l.dropWhile p).isEmpty then [c].dropWhile p else l.dropWhile p ++ [c] := by
  induction l with
  | nil => simp
  | cons x xs ih =>
    by_cases hx : p x
    · simpa [List.dropWhile, hx] using ih
    · simp [List.dropWhile, hx]

theorem trimUnd_cons_und (X : List Char) : trimUnd ('_' :: X) = trimUnd X := by
  unfold trimUnd dropEnd
  simp only [List.reverse_cons]
  rw [dropWhile_append_singleton]
  by_cases hemp : (X.reverse.dropWhile isUnd).isEmpty
  · simp only [hemp, if_pos]
    have hX : X.reverse.dropWhile isUnd = [] := by
      simpa [List.isEmpty_iff] using hemp
    simp [hX, List.dropWhile, isUnd]
  · simp only [hemp, if_neg, Bool.false_eq_true, not_false_iff]
    simp [List.dropWhile, isUnd]

theorem trimUnd_append_und (Y : List Char) : trimUnd (Y ++ ['_']) = trimUnd Y := by
  unfold trimUnd dropEnd
  simp [List.dropWhile, isUnd]

theorem trimUnd_collapse_flag (m : List Char) :
    trimUnd (collapseAux true m) = trimUnd (collapseAux false m) := by
  cases m with
  | nil => rfl
  | cons c cs =>
    by_cases hc : isAlnumChar c
    · simp [collapseAux, hc]
    · simp only [collapseAux, hc, if_neg, Bool.false_eq_true, not_false_iff, if_pos]
      rw [trimUnd_cons_und]

theorem trimUnd_collapse_cons_notAlnum {c : Char} (hc : isAlnumChar c = false)
    (rest : List Char) :
    trimUnd (collapseAux false (c :: rest)) = trimUnd (collapseAux false rest) := by
  simp only [collapseAux, hc, Bool.false_eq_true, if_neg, not_false_iff, if_pos]
  rw [trimUnd_cons_und, trimUnd_collapse_flag]

/-- Whether the collapse flag is set after processing `l` starting from `b`. -/

theorem collapseAux_append_notAlnum {c : Char} (hc : isAlnumChar c = false) :
    ∀ (xs : List Char) (b : Bool),
      collapseAux b (xs ++ [c]) =
        collapseAux b xs ++ (if runFlag b xs then [] else ['_']) := by
  intro xs
  induction xs with
  | nil =>
    intro b
    cases b <;> simp [collapseAux, runFlag, hc]
  | cons x xs ih =>
    intro b
    by_cases hx : isAlnumChar x
    · simp [collapseAux, hx, runFlag, ih]
    · cases b <;> simp [collapseAux, hx, runFlag, ih]

theorem trimUnd_collapse_append_notAlnum {c : Char} (hc : isAlnumChar c = false)
    (xs : List Char) :
    trimUnd (collapseAux false (xs ++ [c])) = trimUnd (collapseAux false xs) := by
  rw [collapseAux_append_notAlnum hc]
  by_cases hf : runFlag false xs
  · simp [hf]
  · simp only [hf, Bool.false_eq_true, if_neg, not_false_iff, if_pos]
    exact trimUnd_append_und _

theorem trimUnd_collapse_dropWhile_space (l : List Char) :
    trimUnd (collapseAux false (l.dropWhile isPySpace)) =
      trimUnd (collapseAux false l) := by
  induction l with
  | nil => rfl
  | cons c rest ih =>
    by_cases hc : isPySpace c
    · rw [List.dropWhile_cons_of_pos hc, ih,
        trimUnd_collapse_cons_notAlnum (not_alnum_of_pySpace hc)]
    · rw [List.dropWhile_cons_of_neg (by simpa using hc)]

theorem trimUnd_collapse_dropEnd_space (l : List Char) :
    trimUnd (collapseAux false (dropEnd isPySpace l)) =
      trimUnd (collapseAux false l) := by
  induction l using List.reverseRecOn with
  | nil => rfl
  | append_singleton xs x ih =>
    by_cases hx : isPySpace x
    · have hde : dropEnd isPySpace (xs ++ [x]) = dropEnd isPySpace xs := by
        unfold dropEnd
        simp [List.dropWhile, hx]
      rw [hde, ih, trimUnd_collapse_append_notAlnum (not_alnum_of_pySpace hx)]
    · have hde : dropEnd isPySpace (xs ++ [x]) = xs ++ [x] := by
        unfold dropEnd
        simp [List.dropWhile, hx]
      rw [hde]

/-- The `.strip()` that the source applies before the regex replacement is
redundant: `slugPy` computes exactly the transform the specification
describes. -/
theorem slugPy_eq_slugSpec (name : String) : slugPy name = slugSpec name := by
  dsimp only [slugPy, slugSpec, pyStrip]
  rw [trimUnd_collapse_dropEnd_space, trimUnd_collapse_dropWhile_space]

theorem exists_fresh_of_injOn (cand : Nat → String) (existing : List String)
    (k N : Nat) (hN : existing.length < N)
    (hinj : ∀ i j, i < N → j < N → cand (k + i) = cand (k + j) → i = j) :
    ∃ j, j < N ∧ cand (k + j) ∉ existing := by
  by_contra h
  push_neg at h
  have hsub : (Finset.range N).image (fun j => cand (k + j)) ⊆ existing.toFinset := by
    intro s hs
    simp only [Finset.mem_image, Finset.mem_range] at hs
    obtain ⟨j, hj, rfl⟩ := hs
    exact List.mem_toFinset.mpr (h j hj)
  have hcard : N ≤ existing.toFinset.card := by
    have himg : ((Finset.range N).image (fun j => cand (k + j))).card = N := by
      rw [Finset.card_image_of_injOn, Finset.card_range]
      intro i hi j hj hij
      exact hinj i j (Finset.mem_range.mp hi) (Finset.mem_range.mp hj) hij
    calc N = ((Finset.range N).image (fun j => cand (k + j))).card := himg.symm
      _ ≤ existing.toFinset.card := Finset.card_le_card hsub
  have := existing.toFinset_card_le
  omega

theorem searchFrom_notMem (cand : Nat → String) (existing : List String) :
    ∀ fuel k, (∃ j, j ≤ fuel ∧ cand (k + j) ∉ existing) →
      searchFrom cand existing k fuel ∉ existing := by
  intro fuel
  induction fuel with
  | zero =>
    intro k ⟨j, hj, hnot⟩
    have : j = 0 := Nat.le_zero.mp hj
    subst this
    simpa [searchFrom] using hnot
  | succ f ih =>
    intro k ⟨j, hj, hnot⟩
    unfold searchFrom
    by_cases hmem : cand k ∈ existing
    · simp only [hmem, if_pos]
      have hj0 : j ≠ 0 := by
        rintro rfl
        exact hnot (by simpa using hmem)
      refine ih (k + 1) ⟨j - 1, by omega, ?_⟩
      have : k + 1 + (j - 1) = k + j := by omega
      rw [this]
      exact hnot
    · simp [hmem]

theorem searchFrom_fresh (cand : Nat → String) (existing : List String)
    (hinj : ∀ i j, i ≤ existing.length + 1 → j ≤ existing.length + 1 →
      cand i = cand j → i = j) :
    searchFrom cand existing 0 (existing.length + 1) ∉ existing := by
  apply searchFrom_notMem
  obtain ⟨j, hj, hnot⟩ := exists_fresh_of_injOn cand existing 0 (existing.length + 1)
    (Nat.lt_succ_self _)
    (fun i j hi hj h => hinj i j (by omega) (by omega) (by simpa using h))
  exact ⟨j, by omega, by simpa using hnot⟩

/-! ### Properties of the query-scoped compiler (core.py) -/

theorem pyMem_append (v : Value) (l₁ l₂ : List Value) :
    pyMem v (l₁ ++ l₂) = (pyMem v l₁ || pyMem v l₂) := by
  simp [pyMem, List.any_append]

theorem pyMem_singleton_str (a b : String) :
    pyMem (.str a) [.str b] = (a == b) := by
  simp [pyMem, valueBEq]

theorem create_template_tag_id (nm ty : String) (pc : Dict) (id : String) :
    dget (EP.create_template_tag nm ty pc id) "id" = some (.str id) := by
  unfold EP.create_template_tag
  cases hS : EP.SIMPLE_PARAMETER_TYPES ty <;>
    (simp only [hS]; split_ifs <;> simp [dget_dset_ne, dget, aget])

theorem create_template_tag_name (nm ty : String) (pc : Dict) (id : String) :
    dget (EP.create_template_tag nm ty pc id) "name" = some (.str nm) := by
  unfold EP.create_template_tag
  cases hS : EP.SIMPLE_PARAMETER_TYPES ty <;>
    (simp only [hS]; split_ifs <;> simp [dget_dset_ne, dget, aget])

theorem process_single_parameter_id (pc : Dict) (id : String) :
    dget (EP.process_single_parameter pc id).1 "id" = some (.str id) := by
  unfold EP.process_single_parameter
  rcases hbv : EP.build_values_source_config (pyGet pc "values_source") (pyGet pc "field")
    with ⟨vst, vsc⟩
  simp only [hbv]
  cases vst <;> cases vsc <;> split_ifs <;> simp [dget_dset_ne, dget, aget]

theorem process_single_parameter_tag (pc : Dict) (id : String) :
    (EP.process_single_parameter pc id).2 =
      EP.create_template_tag (asStr (pyGet pc "name")) (asStr (pyGet pc "type")) pc id := by
  rfl

theorem process_single_parameter_tag_name (pc : Dict) (id : String) :
    pyGet (EP.process_single_parameter pc id).2 "name" = .str (asStr (pyGet pc "name")) := by
  rw [pyGet, process_single_parameter_tag, create_template_tag_name]
  rfl

/-- The duplicate-name loop accepts only batches whose (truthy) names are
pairwise distinct and disjoint from the seed `seen` set. -/
theorem duplicate_name_errors_nil_spec :
    ∀ (params : List Dict) (i : Nat) (seen : List Value),
      EP.duplicate_name_errors i seen params = [] →
      (∀ p ∈ params, ∃ s, s ≠ "" ∧ pyGet p "name" = .str s) →
      (∀ p ∈ params, pyMem (pyGet p "name") seen = false) ∧
        params.Pairwise (fun p q => pyGet p "name" ≠ pyGet q "name") := by
  intro params
  induction params with
  | nil => intro i seen _ _; exact ⟨by simp, List.Pairwise.nil⟩
  | cons p rest ih =>
    intro i seen hnil hstr
    obtain ⟨sp, hsp, hname⟩ := hstr p (List.mem_cons_self _ _)
    have htp : truthy (pyGet p "name") = true := by
      rw [hname]; simpa [truthy] using hsp
    simp only [EP.duplicate_name_errors] at hnil
    by_cases hmem : pyMem (pyGet p "name") seen
    · simp [htp, hmem] at hnil
    · rw [Bool.not_eq_true] at hmem
      simp only [htp, hmem, Bool.and_false, Bool.true_and, if_neg, if_pos,
        Bool.false_eq_true, not_false_iff] at hnil
      obtain ⟨hseen', hpw⟩ := ih (i + 1) (seen ++ [pyGet p "name"]) hnil
        (fun q hq => hstr q (List.mem_cons_of_mem _ hq))
      constructor
      · intro q hq
        rcases List.mem_cons.mp hq with rfl | hq'
        · exact hmem
        · have hq2 := hseen' q hq'
          rw [pyMem_append] at hq2
          exact (Bool.or_eq_false_iff.mp hq2).1
      · refine List.Pairwise.cons ?_ hpw
        intro q hq hEq
        have hq2 := hseen' q hq
        rw [pyMem_append] at hq2
        have h2 := (Bool.or_eq_false_iff.mp hq2).2
        obtain ⟨sq, hsq, hnq⟩ := hstr q (List.mem_cons_of_mem _ hq)
        rw [hnq, hname, pyMem_singleton_str] at h2
        rw [hname, hnq] at hEq
        have : sp = sq := by
          have := congrArg asStr hEq
          simpa [asStr] using this
        simp [this] at h2

theorem validate_enhanced_parameters_parts (params : List Dict)
    (h : (EP.validate_enhanced_parameters none params).1 = true) :
    EP.duplicate_name_errors 0 [] params = [] ∧
      EP.validate_parameter_widget_compatibility params = [] ∧
      EP.required_default_errors 0 params = [] := by
  simp only [EP.validate_enhanced_parameters, beq_iff_eq, List.length_eq_zero] at h
  rw [List.append_eq_nil, List.append_eq_nil] at h
  exact ⟨h.1.1, h.1.2, h.2⟩

theorem validate_enhanced_parameters_false_errors_ne (schemaErr : Option String)
    (params : List Dict)
    (h : (EP.validate_enhanced_parameters schemaErr params).1 = false) :
    (EP.validate_enhanced_parameters schemaErr params).2 ≠ [] := by
  cases schemaErr with
  | some m => simp [EP.validate_enhanced_parameters]
  | none =>
    simp only [EP.validate_enhanced_parameters, beq_iff_eq] at h ⊢
    intro hc
    rw [hc] at h
    simp at h

/-- If the full query-scoped pipeline reports no errors, both validation
stages passed and the result is the processing loop's output. -/
theorem process_enhanced_parameters_success (schemaErr : Option String)
    (tf : Int → Option (List Int)) (ids : Nat → String) (params : List Dict)
    (hok : (EP.process_enhanced_parameters schemaErr tf ids params).2.2 = []) :
    (EP.validate_enhanced_parameters schemaErr params).1 = true ∧
    EP.validate_field_references tf 0 params = [] ∧
    EP.process_enhanced_parameters schemaErr tf ids params =
      ((EP.process_parameters_loop ids 0 params ([], [])).1,
       (EP.process_parameters_loop ids 0 params ([], [])).2, []) := by
  by_cases hv : (EP.validate_enhanced_parameters schemaErr params).1
  · by_cases hf : EP.validate_field_references tf 0 params = []
    · refine ⟨hv, hf, ?_⟩
      simp [EP.process_enhanced_parameters, hv, hf]
    · exfalso
      have hlen : ((EP.validate_field_references tf 0 params).length != 0) = true := by
        simpa using fun h0 => hf (List.length_eq_zero.mp h0)
      simp only [EP.process_enhanced_parameters, hv, Bool.not_true, Bool.false_eq_true,
        if_neg, not_false_iff, hlen, if_pos] at hok
      exact hf hok
  · exfalso
    rw [Bool.not_eq_true] at hv
    have hne := validate_enhanced_parameters_false_errors_ne schemaErr params hv
    simp only [EP.process_enhanced_parameters, hv, Bool.not_false, if_pos] at hok
    exact hne hok

theorem process_parameters_loop_fst (ids : Nat → String) :
    ∀ (params : List Dict) (n : Nat) (procs : List Dict)
      (tags : List (String × Dict)),
      (EP.process_parameters_loop ids n params (procs, tags)).1 =
        procs ++ EP.processedFrom ids n params := by
  intro params
  induction params with
  | nil => intro n procs tags; simp [EP.process_parameters_loop, EP.processedFrom]
  | cons p rest ih =>
    intro n procs tags
    simp only [EP.process_parameters_loop, EP.processedFrom]
    rw [ih]
    simp

theorem processedFrom_get (ids : Nat → String) :
    ∀ (params : List Dict) (n : Nat) (i : Nat) (hi : i < params.length),
      (EP.processedFrom ids n params).get? i =
        some (EP.process_single_parameter (params.get ⟨i, hi⟩) (ids (n + i))).1 := by
  intro params
  induction params with
  | nil => intro n i hi; simp at hi
  | cons p rest ih =>
    intro n i hi
    cases i with
    | zero => simp [EP.processedFrom]
    | succ j =>
      have hj : j < rest.length := by simpa using hi
      simp only [EP.processedFrom, List.get?_cons_succ]
      have hget : (p :: rest).get ⟨j + 1, hi⟩ = rest.get ⟨j, hj⟩ := rfl
      rw [hget, show n + (j + 1) = n + 1 + j by omega]
      exact ih (n + 1) j hj

theorem process_parameters_loop_snd_frozen (ids : Nat → String) :
    ∀ (params : List Dict) (n : Nat) (procs : List Dict)
      (tags : List (String × Dict)) (k : String),
      (∀ p ∈ params, asStr (pyGet p "name") ≠ k) →
      aget (EP.process_parameters_loop ids n params (procs, tags)).2 k = aget tags k := by
  intro params
  induction params with
  | nil => intro n procs tags k _; rfl
  | cons p rest ih =>
    intro n procs tags k hk
    simp only [EP.process_parameters_loop]
    rw [ih _ _ _ _ (fun q hq => hk q (List.mem_cons_of_mem _ hq))]
    rw [process_single_parameter_tag_name]
    exact aget_aset_ne _ _ _ _ (by simpa [asStr] using hk p (List.mem_cons_self _ _))

theorem process_parameters_loop_snd_aget (ids : Nat → String) :
    ∀ (params : List Dict) (n : Nat) (procs : List Dict)
      (tags : List (String × Dict)),
      params.Pairwise (fun p q => pyGet p "name" ≠ pyGet q "name") →
      (∀ p ∈ params, ∃ s, s ≠ "" ∧ pyGet p "name" = .str s) →
      ∀ (i : Nat) (hi : i < params.length),
        aget (EP.process_parameters_loop ids n params (procs, tags)).2
            (asStr (pyGet (params.get ⟨i, hi⟩) "name")) =
          some (EP.process_single_parameter (params.get ⟨i, hi⟩) (ids (n + i))).2 := by
  intro params
  induction params with
  | nil => intro n procs tags _ _ i hi; simp at hi
  | cons p rest ih =>
    intro n procs tags hpw hstr i hi
    cases i with
    | zero =>
      simp only [EP.process_parameters_loop, List.get]
      rw [process_parameters_loop_snd_frozen]
      · rw [process_single_parameter_tag_name]
        exact aget_aset_self _ _ _
      · intro q hq hEq
        have hne := (List.pairwise_cons.mp hpw).1 q hq
        obtain ⟨sp, _, hsp⟩ := hstr p (List.mem_cons_self _ _)
        obtain ⟨sq, _, hsq⟩ := hstr q (List.mem_cons_of_mem _ hq)
        apply hne
        rw [hsp, hsq]
        have : sq = sp := by simpa [hsp, hsq, asStr] using hEq
        rw [this]
    | succ j =>
      simp only [EP.process_parameters_loop]
      have hj : j < rest.length := by simpa using hi
      have := ih (n + 1) (procs ++ [(EP.process_single_parameter p (ids n)).1])
        (aset tags (asStr (pyGet (EP.process_single_parameter p (ids n)).2 "name"))
          (EP.process_single_parameter p (ids n)).2)
        (List.pairwise_cons.mp hpw).2
        (fun q hq => hstr q (List.mem_cons_of_mem _ hq)) j hj
      have hget : (p :: rest).get ⟨j + 1, hi⟩ = rest.get ⟨j, hj⟩ := rfl
      rw [hget, show n + (j + 1) = n + 1 + j by omega]
      exact this

/-- C1: for every query-scoped parameter batch on which compilation succeeds
(and whose names are, as the schema requires, non-empty strings), the `id` of
the i-th emitted compiled parameter and the `id` of the template tag stored
under the i-th input spec's name are both the i-th allocated id — in
particular they are equal. -/
theorem claim_C1_compiled_id_equals_binding_tag_id (schemaErr : Option String)
    (tf : Int → Option (List Int)) (ids : Nat → String) (parameters : List Dict)
    (hstr : ∀ p ∈ parameters, ∃ s, s ≠ "" ∧ pyGet p "name" = .str s)
    (hok : (EP.process_enhanced_parameters schemaErr tf ids parameters).2.2 = []) :
    ∀ (i : Nat) (hi : i < parameters.length),
      ∃ proc tag : Dict,
        (EP.process_enhanced_parameters schemaErr tf ids parameters).1.get? i =
            some proc ∧
        aget (EP.process_enhanced_parameters schemaErr tf ids parameters).2.1
            (asStr (pyGet (parameters.get ⟨i, hi⟩) "name")) = some tag ∧
        dget proc "id" = some (.str (ids i)) ∧
        dget tag "id" = some (.str (ids i)) := by
  intro i hi
  obtain ⟨hv, hf, hr⟩ := process_enhanced_parameters_success schemaErr tf ids parameters hok
  have hnone : schemaErr = none := by
    cases schemaErr with
    | none => rfl
    | some m => simp [EP.validate_enhanced_parameters] at hv
  subst hnone
  obtain ⟨hdup, _, _⟩ := validate_enhanced_parameters_parts parameters hv
  obtain ⟨_, hpw⟩ := duplicate_name_errors_nil_spec parameters 0 [] hdup hstr
  refine ⟨(EP.process_single_parameter (parameters.get ⟨i, hi⟩) (ids i)).1,
          (EP.process_single_parameter (parameters.get ⟨i, hi⟩) (ids i)).2, ?_, ?_, ?_, ?_⟩
  · rw [hr]
    simp only []
    rw [process_parameters_loop_fst]
    simpa using processedFrom_get ids parameters 0 i hi
  · rw [hr]
    simp only []
    have := process_parameters_loop_snd_aget ids parameters 0 [] [] hpw hstr i hi
    simpa using this
  · exact process_single_parameter_id _ _
  · rw [process_single_parameter_tag]
    exact create_template_tag_id _ _ _ _

theorem claim_C1_compiled_id_equals_binding_tag_id_witness :
    (∀ p ∈ [cfgSimple], ∃ s, s ≠ "" ∧ pyGet p "name" = Value.str s) ∧
    (EP.process_enhanced_parameters none (fun _ => some []) (fun n => natDec n)
        [cfgSimple]).2.2 = [] ∧
    ∃ proc tag : Dict,
      (EP.process_enhanced_parameters none (fun _ => some []) (fun n => natDec n)
          [cfgSimple]).1.get? 0 = some proc ∧
      aget (EP.process_enhanced_parameters none (fun _ => some []) (fun n => natDec n)
          [cfgSimple]).2.1 "order_status" = some tag ∧
      dget proc "id" = some (.str "0") ∧
      dget tag "id" = some (.str "0") := by
  have h1 : ∀ p ∈ [cfgSimple], ∃ s, s ≠ "" ∧ pyGet p "name" = Value.str s := by
    intro p hp
    rw [List.mem_singleton] at hp
    subst hp
    exact ⟨"order_status", by decide, rfl⟩
  have h2 : (EP.process_enhanced_parameters none (fun _ => some []) (fun n => natDec n)
      [cfgSimple]).2.2 = [] := by rfl
  refine ⟨h1, h2, ?_⟩
  exact claim_C1_compiled_id_equals_binding_tag_id none (fun _ => some [])
    (fun n => natDec n) [cfgSimple] h1 h2 0 (by decide)

/-- C2 counterexample: on Scenario A's input the compiler keeps the static
string values flat — `values_source_config.values` is
`["pending", "shipped"]`, not `[["pending"], ["shipped"]]` as the claim
states. -/
theorem claim_C2_counterexample :
    dget (EP.process_single_parameter scenarioA "a-uuid").1 "values_source_config" =
      some (.dict [("values", .list [.str "pending", .str "shipped"])]) ∧
    dget (EP.process_single_parameter scenarioA "a-uuid").1 "values_source_config" ≠
      some (.dict [("values",
        .list [.list [.str "pending"], .list [.str "shipped"]])]) := by
  constructor
  · rfl
  · intro h
    rw [show dget (EP.process_single_parameter scenarioA "a-uuid").1
          "values_source_config" =
        some (.dict [("values", .list [.str "pending", .str "shipped"])]) from rfl] at h
    simp at h

/-! ### Stage structure of the two validation pipelines (C3, C4) -/

theorem valueBEq_str_right {v : Value} {s : String} :
    valueBEq v (.str s) = true ↔ v = .str s := by
  cases v <;> simp [valueBEq]

theorem hasKey_of_dget {d : Dict} {k : String} {v : Value} (h : dget d k = some v) :
    hasKey d k = true := by
  induction d with
  | nil => simp [dget, aget] at h
  | cons p rest ih =>
    by_cases hp : p.1 = k
    · simp [hasKey, akey, hp]
    · have h' : dget rest k = some v := by simpa [dget, aget, hp] using h
      have := ih h'
      simp only [hasKey, akey] at this ⊢
      simp [hp, this]

theorem hasKey_of_pyGet_ne_null {d : Dict} {k : String} (h : pyGet d k ≠ .null) :
    hasKey d k = true := by
  cases hd : dget d k with
  | none => exact absurd (by rw [pyGet, hd]; rfl) h
  | some v => exact hasKey_of_dget hd

theorem validate_enhanced_parameters_errors (params : List Dict) :
    (EP.validate_enhanced_parameters none params).2 =
      (EP.duplicate_name_errors 0 [] params ++
        EP.validate_parameter_widget_compatibility params) ++
        EP.required_default_errors 0 params := rfl

theorem validate_enhanced_dashboard_parameters_errors (params : List Dict) :
    (EDP.validate_enhanced_dashboard_parameters none params).2 =
      EDP.dup_tab_errors 0 [] params ++ EDP.per_param_errors 0 params := rfl

theorem validator_false_of_mem_errors {b : Bool} {errors : List String} {e : String}
    (hmem : e ∈ errors) (hb : b = (errors.length == 0)) : b = false := by
  subst hb
  cases errors with
  | nil => simp at hmem
  | cons x rest => simp

theorem required_default_errors_mem :
    ∀ (params : List Dict) (k i : Nat) (p : Dict),
      params.get? i = some p →
      truthy (pyGetD p "required" (.bool false)) = true →
      (!hasKey p "default" || valueBEq (pyGet p "default") .null) = true →
      ("Parameter " ++ natDec (k + i) ++ " (" ++
        pyStr (pyGetD p "name" (.str "unnamed")) ++
        "): required parameters must have a default value") ∈
          EP.required_default_errors k params := by
  intro params
  induction params with
  | nil => intro k i p hp; simp at hp
  | cons q rest ih =>
    intro k i p hp hreq hbad
    cases i with
    | zero =>
      simp only [List.get?_cons_zero, Option.some.injEq] at hp
      subst hp
      simp only [EP.required_default_errors, hreq, hbad, Bool.and_self, if_pos]
      simp
    | succ j =>
      simp only [List.get?_cons_succ] at hp
      have := ih (k + 1) j p hp hreq hbad
      rw [show k + (j + 1) = k + 1 + j by omega]
      simp only [EP.required_default_errors]
      exact List.mem_append_right _ this

theorem per_param_errors_mem :
    ∀ (params : List Dict) (k i : Nat) (p : Dict),
      params.get? i = some p →
      ∀ e ∈ EDP.single_param_errors (k + i) p, e ∈ EDP.per_param_errors k params := by
  intro params
  induction params with
  | nil => intro k i p hp; simp at hp
  | cons q rest ih =>
    intro k i p hp e he
    cases i with
    | zero =>
      simp only [List.get?_cons_zero, Option.some.injEq] at hp
      subst hp
      exact List.mem_append_left _ he
    | succ j =>
      simp only [List.get?_cons_succ] at hp
      rw [show k + (j + 1) = k + 1 + j by omega] at he
      exact List.mem_append_right _ (ih (k + 1) j p hp e he)

theorem per_param_errors_nil :
    ∀ (params : List Dict) (k : Nat),
      EDP.per_param_errors k params = [] →
      ∀ (i : Nat) (p : Dict), params.get? i = some p →
        EDP.single_param_errors (k + i) p = [] := by
  intro params
  induction params with
  | nil => intro k _ i p hp; simp at hp
  | cons q rest ih =>
    intro k hnil i p hp
    simp only [EDP.per_param_errors, List.append_eq_nil] at hnil
    cases i with
    | zero =>
      simp only [List.get?_cons_zero, Option.some.injEq] at hp
      subst hp
      simpa using hnil.1
    | succ j =>
      simp only [List.get?_cons_succ] at hp
      rw [show k + (j + 1) = k + 1 + j by omega]
      exact ih (k + 1) hnil.2 j p hp

theorem required_default_errors_nil :
    ∀ (params : List Dict) (k : Nat),
      EP.required_default_errors k params = [] →
      ∀ (i : Nat) (p : Dict), params.get? i = some p →
        truthy (pyGetD p "required" (.bool false)) = true →
        (!hasKey p "default" || valueBEq (pyGet p "default") .null) = false := by
  intro params
  induction params with
  | nil => intro k _ i p hp; simp at hp
  | cons q rest ih =>
    intro k hnil i p hp hreq
    simp only [EP.required_default_errors, List.append_eq_nil] at hnil
    cases i with
    | zero =>
      simp only [List.get?_cons_zero, Option.some.injEq] at hp
      subst hp
      by_contra hbad
      rw [Bool.not_eq_false] at hbad
      simp [hreq, hbad] at hnil
    | succ j =>
      simp only [List.get?_cons_succ] at hp
      exact ih (k + 1) hnil.2 j p hp hreq

theorem validate_field_references_access_mem (tf : Int → Option (List Int)) :
    ∀ (params : List Dict) (k i : Nat) (p : Dict),
      params.get? i = some p →
      hasKey p "field" = true →
      tf (asInt (vGet (pyGet p "field") "table_id")) = none →
      ("Parameter " ++ natDec (k + i) ++ " (" ++ pyStr (pyGet p "name") ++
        "): Cannot access table " ++
        intDec (asInt (vGet (pyGet p "field") "table_id")) ++ " in database " ++
        intDec (asInt (vGet (pyGet p "field") "database_id"))) ∈
          EP.validate_field_references tf k params := by
  intro params
  induction params with
  | nil => intro k i p hp; simp at hp
  | cons q rest ih =>
    intro k i p hp hfield htf
    cases i with
    | zero =>
      simp only [List.get?_cons_zero, Option.some.injEq] at hp
      subst hp
      simp only [EP.validate_field_references, hfield, Bool.not_true, Bool.false_eq_true,
        if_neg, not_false_iff, htf]
      simp
    | succ j =>
      simp only [List.get?_cons_succ] at hp
      have := ih (k + 1) j p hp hfield htf
      rw [show k + (j + 1) = k + 1 + j by omega]
      exact List.mem_append_right _ this

theorem validate_enhanced_dashboard_parameters_false_errors_ne
    (schemaErr : Option String) (params : List Dict)
    (h : (EDP.validate_enhanced_dashboard_parameters schemaErr params).1 = false) :
    (EDP.validate_enhanced_dashboard_parameters schemaErr params).2 ≠ [] := by
  cases schemaErr with
  | some m => simp [EDP.validate_enhanced_dashboard_parameters]
  | none =>
    simp only [EDP.validate_enhanced_dashboard_parameters, beq_iff_eq] at h ⊢
    intro hc
    rw [hc] at h
    simp at h

/-- If the dashboard pipeline reports no errors, both stages passed. -/
theorem process_enhanced_dashboard_parameters_success (schemaErr : Option String)
    (cm : Int → Except String (List Dict)) (gs : Nat → Nat → String)
    (params : List Dict)
    (hok : (EDP.process_enhanced_dashboard_parameters schemaErr cm gs params).2 = []) :
    (EDP.validate_enhanced_dashboard_parameters schemaErr params).1 = true ∧
    EDP.validate_card_references cm 0 params = [] ∧
    EDP.process_enhanced_dashboard_parameters schemaErr cm gs params =
      ((EDP.process_dashboard_loop gs 0 params ([], [])).1, []) := by
  by_cases hv : (EDP.validate_enhanced_dashboard_parameters schemaErr params).1
  · by_cases hc : EDP.validate_card_references cm 0 params = []
    · refine ⟨hv, hc, ?_⟩
      simp [EDP.process_enhanced_dashboard_parameters, hv, hc]
    · exfalso
      have hlen : ((EDP.validate_card_references cm 0 params).length != 0) = true := by
        simpa using fun h0 => hc (List.length_eq_zero.mp h0)
      simp only [EDP.process_enhanced_dashboard_parameters, hv, Bool.not_true,
        Bool.false_eq_true, if_neg, not_false_iff, hlen, if_pos] at hok
      exact hc hok
  · exfalso
    rw [Bool.not_eq_true] at hv
    have hne := validate_enhanced_dashboard_parameters_false_errors_ne schemaErr params hv
    simp only [EDP.process_enhanced_dashboard_parameters, hv, Bool.not_false, if_pos] at hok
    exact hne hok

/-- C3 counterexample: the query-scoped validator and pipeline accept a
`required` parameter whose default is the empty string, contradicting the
claim that such a batch fails validation. -/
theorem claim_C3_counterexample :
    truthy (pyGetD cfgRequiredEmpty "required" (.bool false)) = true ∧
    pyGet cfgRequiredEmpty "default" = .str "" ∧
    (EP.validate_enhanced_parameters none [cfgRequiredEmpty]).1 = true ∧
    (EP.validate_enhanced_parameters none [cfgRequiredEmpty]).2 = [] ∧
    (EP.process_enhanced_parameters none (fun _ => some []) (fun n => natDec n)
        [cfgRequiredEmpty]).2.2 = [] :=
  ⟨rfl, rfl, rfl, rfl, rfl⟩

/-- A required dashboard parameter whose default is absent, null, the empty
string, or an empty list contributes a required-default error to its own
per-parameter error list. -/
theorem single_param_required_error_mem (i : Nat) (p : Dict)
    (hreq : truthy (pyGetD p "required" (.bool false)) = true)
    (hbad : (!hasKey p "default" || valueBEq (pyGet p "default") .null) = true ∨
      pyGet p "default" = .str "" ∨
      (isListVal (pyGet p "default") = true ∧ vList (pyGet p "default") = [])) :
    ∃ e ∈ EDP.single_param_errors i p,
      (e = "Parameter " ++ natDec i ++ " (" ++
          pyStr (pyGetD p "name" (.str ("parameter_" ++ natDec i))) ++
          "): " ++ "required parameters must have a default value" ∨
       e = "Parameter " ++ natDec i ++ " (" ++
          pyStr (pyGetD p "name" (.str ("parameter_" ++ natDec i))) ++
          "): " ++ "required parameters must have a non-empty default value") := by
  unfold EDP.single_param_errors
  rcases hbad with hmn | hes | ⟨hl, hle⟩
  · refine ⟨_, ?_, Or.inl rfl⟩
    simp [List.mem_append, hreq, hmn]
  · have hk : hasKey p "default" = true :=
      hasKey_of_pyGet_ne_null (by rw [hes]; simp)
    refine ⟨_, ?_, Or.inr rfl⟩
    simp [List.mem_append, hreq, hk, hes, valueBEq, isListVal]
  · have hk : hasKey p "default" = true := by
      apply hasKey_of_pyGet_ne_null
      intro hn
      rw [hn] at hl
      simp [isListVal] at hl
    have hempty : (vList (pyGet p "default")).isEmpty = true := by
      rw [hle]; rfl
    have hnotnull : valueBEq (pyGet p "default") .null = false := by
      cases hv : pyGet p "default" with
      | list xs => rfl
      | null => rw [hv] at hl; simp [isListVal] at hl
      | bool b => rfl
      | int n => rfl
      | str s => rfl
      | dict d => rfl
    refine ⟨_, ?_, Or.inr rfl⟩
    simp [List.mem_append, hreq, hk, hnotnull, hl, hempty]

/-- C3 (amended): the dashboard-scoped validator rejects a required parameter
whose default is absent, null, the empty string or an empty list, with an
error naming that parameter; the query-scoped validator rejects only an
absent or null default (empty strings and lists pass); consequently, query
compilation success guarantees a present non-null default for required
parameters, and dashboard compilation success a present non-empty one. -/
theorem claim_C3_required_default (params : List Dict) (i : Nat) (p : Dict)
    (hp : params.get? i = some p)
    (hreq : truthy (pyGetD p "required" (.bool false)) = true) :
    (((!hasKey p "default" || valueBEq (pyGet p "default") .null) = true ∨
        pyGet p "default" = .str "" ∨
        (isListVal (pyGet p "default") = true ∧ vList (pyGet p "default") = [])) →
      (EDP.validate_enhanced_dashboard_parameters none params).1 = false ∧
        ∃ e ∈ (EDP.validate_enhanced_dashboard_parameters none params).2,
          (e = "Parameter " ++ natDec i ++ " (" ++
              pyStr (pyGetD p "name" (.str ("parameter_" ++ natDec i))) ++
              "): " ++ "required parameters must have a default value" ∨
           e = "Parameter " ++ natDec i ++ " (" ++
              pyStr (pyGetD p "name" (.str ("parameter_" ++ natDec i))) ++
              "): " ++ "required parameters must have a non-empty default value")) ∧
    ((!hasKey p "default" || valueBEq (pyGet p "default") .null) = true →
      (EP.validate_enhanced_parameters none params).1 = false ∧
        ("Parameter " ++ natDec i ++ " (" ++
          pyStr (pyGetD p "name" (.str "unnamed")) ++
          "): required parameters must have a default value") ∈
            (EP.validate_enhanced_parameters none params).2) ∧
    (∀ (schemaErr : Option String) (tf : Int → Option (List Int)) (ids : Nat → String),
      (EP.process_enhanced_parameters schemaErr tf ids params).2.2 = [] →
      hasKey p "default" = true ∧ pyGet p "default" ≠ .null) ∧
    (∀ (schemaErr : Option String) (cm : Int → Except String (List Dict))
        (gs : Nat → Nat → String),
      (EDP.process_enhanced_dashboard_parameters schemaErr cm gs params).2 = [] →
      hasKey p "default" = true ∧ pyGet p "default" ≠ .null ∧
        pyGet p "default" ≠ .str "" ∧
        ¬(isListVal (pyGet p "default") = true ∧ vList (pyGet p "default") = [])) := by
  refine ⟨?_, ?_, ?_, ?_⟩
  · -- dashboard-scoped rejection
    intro hbad
    obtain ⟨e, he, hform⟩ := single_param_required_error_mem i p hreq hbad
    have hin : e ∈ (EDP.validate_enhanced_dashboard_parameters none params).2 := by
      rw [validate_enhanced_dashboard_parameters_errors]
      apply List.mem_append_right
      exact per_param_errors_mem params 0 i p hp e (by simpa using he)
    constructor
    · exact validator_false_of_mem_errors hin rfl
    · exact ⟨e, hin, hform⟩
  · -- query-scoped rejection of absent/null defaults
    intro hbad
    have hin : ("Parameter " ++ natDec i ++ " (" ++
        pyStr (pyGetD p "name" (.str "unnamed")) ++
        "): required parameters must have a default value") ∈
          (EP.validate_enhanced_parameters none params).2 := by
      rw [validate_enhanced_parameters_errors]
      apply List.mem_append_right
      simpa using required_default_errors_mem params 0 i p hp hreq hbad
    exact ⟨validator_false_of_mem_errors hin rfl, hin⟩
  · -- query compilation success
    intro schemaErr tf ids hok
    obtain ⟨hv, -, -⟩ := process_enhanced_parameters_success schemaErr tf ids params hok
    have hnone : schemaErr = none := by
      cases schemaErr with
      | none => rfl
      | some m => simp [EP.validate_enhanced_parameters] at hv
    subst hnone
    obtain ⟨-, -, hreqnil⟩ := validate_enhanced_parameters_parts params hv
    have := required_default_errors_nil params 0 hreqnil i p hp hreq
    rw [Bool.or_eq_false_iff] at this
    refine ⟨by simpa using this.1, fun hnull => ?_⟩
    rw [hnull] at this
    simp [valueBEq] at this
  · -- dashboard compilation success
    intro schemaErr cm gs hok
    obtain ⟨hv, -, -⟩ :=
      process_enhanced_dashboard_parameters_success schemaErr cm gs params hok
    have hnone : schemaErr = none := by
      cases schemaErr with
      | none => rfl
      | some m => simp [EDP.validate_enhanced_dashboard_parameters] at hv
    subst hnone
    have hparts : EDP.dup_tab_errors 0 [] params = [] ∧
        EDP.per_param_errors 0 params = [] := by
      simp only [EDP.validate_enhanced_dashboard_parameters, beq_iff_eq,
        List.length_eq_zero] at hv
      exact List.append_eq_nil.mp hv
    have hsingle := per_param_errors_nil params 0 hparts.2 i p hp
    rw [show (0 : Nat) + i = i by omega] at hsingle
    have hcontra : ¬((!hasKey p "default" || valueBEq (pyGet p "default") .null) = true ∨
        pyGet p "default" = .str "" ∨
        (isListVal (pyGet p "default") = true ∧ vList (pyGet p "default") = [])) := by
      intro hbad
      obtain ⟨e, he, -⟩ := single_param_required_error_mem i p hreq hbad
      rw [hsingle] at he
      simp at he
    refine ⟨?_, ?_, ?_, ?_⟩
    · by_contra hk
      have hk' : hasKey p "default" = false := by simpa using hk
      exact hcontra (Or.inl (by simp [hk']))
    · intro hnull
      exact hcontra (Or.inl (by simp [hnull, valueBEq]))
    · intro hes
      exact hcontra (Or.inr (Or.inl hes))
    · intro hle
      exact hcontra (Or.inr (Or.inr hle))

theorem claim_C3_required_default_witness :
    [cfgRequiredMissing].get? 0 = some cfgRequiredMissing ∧
    truthy (pyGetD cfgRequiredMissing "required" (.bool false)) = true ∧
    ((EP.validate_enhanced_parameters none [cfgRequiredMissing]).1 = false ∧
      ("Parameter " ++ natDec 0 ++ " (" ++
        pyStr (pyGetD cfgRequiredMissing "name" (.str "unnamed")) ++
        "): required parameters must have a default value") ∈
          (EP.validate_enhanced_parameters none [cfgRequiredMissing]).2) ∧
    ((EDP.validate_enhanced_dashboard_parameters none [cfgRequiredMissing]).1 = false) := by
  refine ⟨rfl, rfl, ?_, ?_⟩
  · exact (claim_C3_required_default [cfgRequiredMissing] 0 cfgRequiredMissing rfl rfl).2.1 rfl
  · exact ((claim_C3_required_default [cfgRequiredMissing] 0 cfgRequiredMissing rfl rfl).1
      (Or.inl rfl)).1

/-- C4: any error in the schema/business-rule stage makes both pipelines
return exactly that stage's errors with empty outputs, for every possible
metadata provider (so the reference stage is never consulted); and within a
stage every parameter is checked — a violating parameter's error is in the
stage's error list no matter what the rest of the batch contains. -/
theorem claim_C4_staged_validation :
    (∀ (schemaErr : Option String) (tf : Int → Option (List Int))
        (ids : Nat → String) (params : List Dict),
      (EP.validate_enhanced_parameters schemaErr params).1 = false →
      EP.process_enhanced_parameters schemaErr tf ids params =
        ([], [], (EP.validate_enhanced_parameters schemaErr params).2)) ∧
    (∀ (schemaErr : Option String) (cm : Int → Except String (List Dict))
        (gs : Nat → Nat → String) (params : List Dict),
      (EDP.validate_enhanced_dashboard_parameters schemaErr params).1 = false →
      EDP.process_enhanced_dashboard_parameters schemaErr cm gs params =
        ([], (EDP.validate_enhanced_dashboard_parameters schemaErr params).2)) ∧
    (∀ (params : List Dict) (i : Nat) (p : Dict),
      params.get? i = some p →
      truthy (pyGetD p "required" (.bool false)) = true →
      (!hasKey p "default" || valueBEq (pyGet p "default") .null) = true →
      ("Parameter " ++ natDec i ++ " (" ++ pyStr (pyGetD p "name" (.str "unnamed")) ++
        "): required parameters must have a default value") ∈
          (EP.validate_enhanced_parameters none params).2) ∧
    (∀ (tf : Int → Option (List Int)) (params : List Dict) (i : Nat) (p : Dict),
      params.get? i = some p →
      hasKey p "field" = true →
      tf (asInt (vGet (pyGet p "field") "table_id")) = none →
      ("Parameter " ++ natDec i ++ " (" ++ pyStr (pyGet p "name") ++
        "): Cannot access table " ++
        intDec (asInt (vGet (pyGet p "field") "table_id")) ++ " in database " ++
        intDec (asInt (vGet (pyGet p "field") "database_id"))) ∈
          EP.validate_field_references tf 0 params) ∧
    (∀ (params : List Dict) (i : Nat) (p : Dict),
      params.get? i = some p →
      truthy (pyGetD p "required" (.bool false)) = true →
      (!hasKey p "default" || valueBEq (pyGet p "default") .null) = true →
      ("Parameter " ++ natDec i ++ " (" ++
        pyStr (pyGetD p "name" (.str ("parameter_" ++ natDec i))) ++
        "): " ++ "required parameters must have a default value") ∈
          (EDP.validate_enhanced_dashboard_parameters none params).2) := by
  refine ⟨?_, ?_, ?_, ?_, ?_⟩
  · intro schemaErr tf ids params hv
    simp [EP.process_enhanced_parameters, hv]
  · intro schemaErr cm gs params hv
    simp [EDP.process_enhanced_dashboard_parameters, hv]
  · intro params i p hp hreq hbad
    rw [validate_enhanced_parameters_errors]
    apply List.mem_append_right
    simpa using required_default_errors_mem params 0 i p hp hreq hbad
  · intro tf params i p hp hfield htf
    simpa using validate_field_references_access_mem tf params 0 i p hp hfield htf
  · intro params i p hp hreq hbad
    rw [validate_enhanced_dashboard_parameters_errors]
    apply List.mem_append_right
    refine per_param_errors_mem params 0 i p hp _ ?_
    unfold EDP.single_param_errors
    simp [List.mem_append, hreq, hbad]

theorem claim_C4_staged_validation_witness :
    (EP.validate_enhanced_parameters none [cfgSimple, cfgSimple]).1 = false ∧
    EP.process_enhanced_parameters none (fun _ => none) (fun n => natDec n)
        [cfgSimple, cfgSimple] =
      ([], [], (EP.validate_enhanced_parameters none [cfgSimple, cfgSimple]).2) := by
  have h1 : (EP.validate_enhanced_parameters none [cfgSimple, cfgSimple]).1 = false := rfl
  exact ⟨h1, claim_C4_staged_validation.1 none (fun _ => none) (fun n => natDec n)
    [cfgSimple, cfgSimple] h1⟩

/-- C8 counterexample: a query-scoped parameter with a static values source
but no `ui_widget` is emitted with `values_query_type = "none"`, not
`"list"` — for query scope the widget, not the values source, decides. -/
theorem claim_C8_counterexample :
    vGet (pyGet cfgStaticNoWidget "values_source") "type" = .str "static" ∧
    dget (EP.process_single_parameter cfgStaticNoWidget "a-uuid").1 "values_query_type" =
      some (.str "none") ∧
    dget (EP.process_single_parameter cfgStaticNoWidget "a-uuid").1 "values_query_type" ≠
      some (.str "list") := by
  refine ⟨rfl, rfl, ?_⟩
  intro h
  rw [show dget (EP.process_single_parameter cfgStaticNoWidget "a-uuid").1
        "values_query_type" = some (.str "none") from rfl] at h
  simp at h

/-- C8 (amended): the emitted `values_query_type` of a dashboard-scoped
parameter is determined by the values source (static → list, card → search,
connected → list, otherwise none), while for a query-scoped parameter it is
determined by the `ui_widget` (input → none, dropdown → list,
search → search, absent → none). -/
theorem claim_C8_values_query_type :
    (∀ (gen : Nat → String) (pc : Dict) (existing : List String),
      dget (EDP.process_single_dashboard_parameter gen pc existing).1
          "values_query_type" =
        some (.str (EDP.determine_values_query_type pc))) ∧
    (∀ (pc : Dict) (id : String),
      dget (EP.process_single_parameter pc id).1 "values_query_type" =
        some (.str (EP.convert_ui_widget_to_values_query_type (pyGet pc "ui_widget")))) ∧
    (∀ pc : Dict, truthy (pyGet pc "values_source") = true →
      (valueBEq (vGet (pyGet pc "values_source") "type") (.str "static") = true →
        EDP.determine_values_query_type pc = "list") ∧
      (valueBEq (vGet (pyGet pc "values_source") "type") (.str "card") = true →
        EDP.determine_values_query_type pc = "search") ∧
      (valueBEq (vGet (pyGet pc "values_source") "type") (.str "connected") = true →
        EDP.determine_values_query_type pc = "list")) ∧
    (∀ pc : Dict, truthy (pyGet pc "values_source") = false →
      EDP.determine_values_query_type pc = "none") ∧
    (∀ pc : Dict, pyGet pc "ui_widget" = .null →
      EP.convert_ui_widget_to_values_query_type (pyGet pc "ui_widget") = "none") := by
  refine ⟨?_, ?_, ?_, ?_, ?_⟩
  · intro gen pc existing
    have h1 : ∀ (d : Dict) (v : Value),
        dget (dset d "values_source_type" v) "values_query_type" =
          dget d "values_query_type" :=
      fun d v => dget_dset_ne d _ _ v (by decide)
    have h2 : ∀ (d : Dict) (v : Value),
        dget (dset d "values_source_config" v) "values_query_type" =
          dget d "values_query_type" :=
      fun d v => dget_dset_ne d _ _ v (by decide)
    unfold EDP.process_single_dashboard_parameter
    rcases hbv : EDP.build_values_source_config pc with ⟨vst, vsc⟩
    simp only [hbv]
    cases vst <;> cases vsc <;>
      simp only [apply_ite (fun d => dget d "values_query_type"), h1, h2,
        dget_dset_self, ite_self]
  · intro pc id
    have h1 : ∀ (d : Dict) (v : Value),
        dget (dset d "values_source_type" v) "values_query_type" =
          dget d "values_query_type" :=
      fun d v => dget_dset_ne d _ _ v (by decide)
    have h2 : ∀ (d : Dict) (v : Value),
        dget (dset d "values_source_config" v) "values_query_type" =
          dget d "values_query_type" :=
      fun d v => dget_dset_ne d _ _ v (by decide)
    unfold EP.process_single_parameter
    rcases hbv : EP.build_values_source_config (pyGet pc "values_source") (pyGet pc "field")
      with ⟨vst, vsc⟩
    simp only [hbv]
    cases vst <;> cases vsc <;>
      simp only [apply_ite (fun d => dget d "values_query_type"), h1, h2,
        dget_dset_self, ite_self]
  · intro pc htr
    refine ⟨fun hs => ?_, fun hc => ?_, fun hcon => ?_⟩
    · rw [valueBEq_str_right] at hs
      simp [EDP.determine_values_query_type, htr, hs, valueBEq]
    · rw [valueBEq_str_right] at hc
      simp [EDP.determine_values_query_type, htr, hc, valueBEq]
    · rw [valueBEq_str_right] at hcon
      simp [EDP.determine_values_query_type, htr, hcon, valueBEq]
  · intro pc hf
    simp [EDP.determine_values_query_type, hf]
  · intro pc hn
    rw [hn]
    rfl

theorem claim_C8_values_query_type_witness :
    truthy (pyGet dashStatic "values_source") = true ∧
    valueBEq (vGet (pyGet dashStatic "values_source") "type") (.str "static") = true ∧
    EDP.determine_values_query_type dashStatic = "list" ∧
    dget (EDP.process_single_dashboard_parameter (fun _ => "id12345") dashStatic []).1
      "values_query_type" = some (.str "list") := by
  refine ⟨rfl, rfl, ?_, ?_⟩
  · exact (claim_C8_values_query_type.2.2.1 dashStatic rfl).1 rfl
  · exact claim_C8_values_query_type.1 (fun _ => "id12345") dashStatic []

/-- C2 (amended): Scenario A compiles to target `variable(order_status)`,
binding-tag kind `text`, `values_source_type = "static-list"`,
`values_query_type = "list"`, and values_source_config values
`["pending", "shipped"]` — the static string values are kept as-is, only
numeric static values are wrapped in singleton arrays. -/
theorem claim_C2_scenarioA_compilation (param_id : String) :
    dget (EP.process_single_parameter scenarioA param_id).1 "target" =
      some (.list [.str "variable", .list [.str "template-tag", .str "order_status"]]) ∧
    dget (EP.process_single_parameter scenarioA param_id).2 "type" =
      some (.str "text") ∧
    dget (EP.process_single_parameter scenarioA param_id).1 "values_source_type" =
      some (.str "static-list") ∧
    dget (EP.process_single_parameter scenarioA param_id).1 "values_query_type" =
      some (.str "list") ∧
    dget (EP.process_single_parameter scenarioA param_id).1 "values_source_config" =
      some (.dict [("values", .list [.str "pending", .str "shipped"])]) := by
  exact ⟨rfl, rfl, rfl, rfl, rfl⟩

/-- C9: the claim fails on `tools/parameters.py`, whose duplicate-name check is
nested inside the `name == "tab"` branch: the batch `dupNameParams`, two
parameters both named `"a"`, passes `validate_parameters` with no error (first
two conjuncts), even though the same batch is rejected with a duplicate-name
error by the enhanced dashboard validator (last two conjuncts).  The reserved
name `"tab"` itself is rejected as claimed (middle conjuncts). -/
theorem claim_C9_duplicate_name_accepted :
    (P.validate_parameters none dupNameParams).1 = true ∧
    (P.validate_parameters none dupNameParams).2 = [] ∧
    (P.validate_parameters none tabParams).1 = false ∧
    (P.validate_parameters none tabParams).2 =
      ["Parameter 0: name cannot be " ++ "'tab'" ++ " (reserved for dashboard tabs)"] ∧
    (EDP.validate_enhanced_dashboard_parameters none dupNameParams).1 = false ∧
    (EDP.validate_enhanced_dashboard_parameters none dupNameParams).2 =
      ["Parameter 1: duplicate name " ++ "'a'"] := by
  refine ⟨rfl, rfl, rfl, ?_, rfl, ?_⟩ <;> decide

theorem process_parameters_heap_cons (gen : Nat → Nat → String) (n : Nat) (h : Heap)
    (a : Nat) (rest : List Nat) (out : List Nat) (ids : List String)
    (names : List Value) :
    ∃ h2 ids2 names2,
      P.process_parameters_heap gen n h (a :: rest) out ids names =
        P.process_parameters_heap gen (n + 1) h2 rest (out ++ [h.nxt]) ids2 names2 ∧
      h2.nxt = h.nxt + 1 ∧ ∀ x, x < h.nxt → h2.mem x = h.mem x := by
  simp only [P.process_parameters_heap]
  refine ⟨_, _, _, rfl, ?_, ?_⟩
  · split <;> simp [halloc, hwrite]
  · intro x hx
    have hne : x ≠ h.nxt := by omega
    split <;> simp [halloc, hwrite, hne]

theorem process_parameters_heap_frame (gen : Nat → Nat → String) :
    ∀ (addrs : List Nat) (n : Nat) (h : Heap) (out : List Nat) (ids : List String)
      (names : List Value),
      (∀ a, a < h.nxt →
        (P.process_parameters_heap gen n h addrs out ids names).1.mem a = h.mem a) ∧
      h.nxt ≤ (P.process_parameters_heap gen n h addrs out ids names).1.nxt ∧
      ∀ b ∈ (P.process_parameters_heap gen n h addrs out ids names).2,
        b ∈ out ∨ h.nxt ≤ b := by
  intro addrs
  induction addrs with
  | nil =>
    intro n h out ids names
    exact ⟨fun a _ => rfl, Nat.le_refl _, fun b hb => Or.inl hb⟩
  | cons a rest ih =>
    intro n h out ids names
    obtain ⟨h2, ids2, names2, heq, hnxt2, hmem2⟩ :=
      process_parameters_heap_cons gen n h a rest out ids names
    rw [heq]
    obtain ⟨IH1, IH2, IH3⟩ := ih (n + 1) h2 (out ++ [h.nxt]) ids2 names2
    refine ⟨?_, ?_, ?_⟩
    · intro x hx
      rw [IH1 x (by omega), hmem2 x hx]
    · omega
    · intro b hb
      rcases IH3 b hb with hmem | hge
      · rcases List.mem_append.mp hmem with hl | hr
        · exact Or.inl hl
        · right
          simp only [List.mem_singleton] at hr
          omega
      · right; omega

theorem process_card_parameters_heap_cons (gen : Nat → Nat → String) (n : Nat)
    (h : Heap) (a : Nat) (rest : List Nat) (out : List Nat) (ids slugs : List String) :
    ∃ h2 ids2 slugs2,
      CP.process_card_parameters_heap gen n h (a :: rest) out ids slugs =
        CP.process_card_parameters_heap gen (n + 1) h2 rest (out ++ [h.nxt]) ids2 slugs2 ∧
      h2.nxt = h.nxt + 1 ∧ ∀ x, x < h.nxt → h2.mem x = h.mem x := by
  simp only [CP.process_card_parameters_heap]
  refine ⟨_, _, _, rfl, ?_, ?_⟩
  · split <;> split <;> split <;> simp [halloc, hwrite]
  · intro x hx
    have hne : x ≠ h.nxt := by omega
    split <;> split <;> split <;> simp [halloc, hwrite, hne]

theorem process_card_parameters_heap_frame (gen : Nat → Nat → String) :
    ∀ (addrs : List Nat) (n : Nat) (h : Heap) (out : List Nat) (ids slugs : List String),
      (∀ a, a < h.nxt →
        (CP.process_card_parameters_heap gen n h addrs out ids slugs).1.mem a = h.mem a) ∧
      h.nxt ≤ (CP.process_card_parameters_heap gen n h addrs out ids slugs).1.nxt ∧
      ∀ b ∈ (CP.process_card_parameters_heap gen n h addrs out ids slugs).2,
        b ∈ out ∨ h.nxt ≤ b := by
  intro addrs
  induction addrs with
  | nil =>
    intro n h out ids slugs
    exact ⟨fun a _ => rfl, Nat.le_refl _, fun b hb => Or.inl hb⟩
  | cons a rest ih =>
    intro n h out ids slugs
    obtain ⟨h2, ids2, slugs2, heq, hnxt2, hmem2⟩ :=
      process_card_parameters_heap_cons gen n h a rest out ids slugs
    rw [heq]
    obtain ⟨IH1, IH2, IH3⟩ := ih (n + 1) h2 (out ++ [h.nxt]) ids2 slugs2
    refine ⟨?_, ?_, ?_⟩
    · intro x hx
      rw [IH1 x (by omega), hmem2 x hx]
    · omega
    · intro b hb
      rcases IH3 b hb with hmem | hge
      · rcases List.mem_append.mp hmem with hl | hr
        · exact Or.inl hl
        · right
          simp only [List.mem_singleton] at hr
          omega
      · right; omega

theorem akey_aset_ne {α : Type} (d : List (String × α)) (k k' : String) (v : α)
    (hne : k ≠ k') : akey (aset d k v) k' = akey d k' := by
  induction d with
  | nil => simp [aset, akey, hne]
  | cons p rest ih =>
    by_cases hp : p.1 = k
    · simp [aset, akey, hp, hne]
    · simp [aset, akey, hp, ih]

theorem hasKey_dset_ne (d : Dict) (k k' : String) (v : Value) (hne : k ≠ k') :
    hasKey (dset d k v) k' = hasKey d k' := akey_aset_ne d k k' v hne

theorem string_append_cancel_left {a b c : String} (h : a ++ b = a ++ c) : b = c := by
  have hd := congrArg String.data h
  rw [String.data_append, String.data_append] at hd
  have hbc : b.data = c.data := List.append_cancel_left hd
  cases b
  cases c
  exact congrArg String.mk hbc

theorem natDecAux_ne_nil (fuel n : Nat) (h : 0 < fuel) : natDecAux fuel n ≠ [] := by
  cases fuel with
  | zero => omega
  | succ f =>
    unfold natDecAux
    split <;> simp

theorem natDec_length_pos (n : Nat) : 0 < (natDec n).data.length :=
  List.length_pos.mpr (natDecAux_ne_nil (n + 1) n (Nat.succ_pos n))

theorem slug_candidate_injective (base : String) :
    ∀ i j, CP.slug_candidate base i = CP.slug_candidate base j → i = j := by
  have hlen : ∀ m, (CP.slug_candidate base (m + 1)).data.length =
      base.data.length + 1 + (natDec (m + 1)).data.length := by
    intro m
    show ((base ++ "_") ++ natDec (m + 1)).data.length = _
    rw [String.data_append, String.data_append]
    simp [List.length_append]
    omega
  intro i j hij
  match i, j with
  | 0, 0 => rfl
  | 0, j + 1 =>
    exfalso
    have h1 := congrArg (fun s => s.data.length) hij
    simp only at h1
    rw [hlen j] at h1
    have := natDec_length_pos (j + 1)
    simp [CP.slug_candidate] at h1
    omega
  | i + 1, 0 =>
    exfalso
    have h1 := congrArg (fun s => s.data.length) hij
    simp only at h1
    rw [hlen i] at h1
    have := natDec_length_pos (i + 1)
    simp [CP.slug_candidate] at h1
    omega
  | i + 1, j + 1 =>
    have h2 : (base ++ "_") ++ natDec (i + 1) = (base ++ "_") ++ natDec (j + 1) := hij
    have := natDec_injective (string_append_cancel_left h2)
    omega

theorem process_one_card_parameter_slug (gen : Nat → String) (p : Dict)
    (ids slugs : List String) (hn : hasKey p "name" = true) :
    ∃ fresh, fresh ∉ slugs ∧
      dget (CP.process_one_card_parameter gen p ids slugs).1 "slug" = some (.str fresh) ∧
      (CP.process_one_card_parameter gen p ids slugs).2.2 = slugs ++ [fresh] := by
  have hkid : ∀ v : Value, hasKey (dset p "id" v) "name" = hasKey p "name" :=
    fun v => hasKey_dset_ne p "id" "name" v (by decide)
  simp only [CP.process_one_card_parameter]
  by_cases hc1 : (!hasKey p "id" || !truthy (pyGet p "id")) = true
  · rw [if_pos hc1, if_pos ((hkid _).trans hn)]
    refine ⟨_, ?_, ?_, rfl⟩
    · exact searchFrom_fresh _ _ (fun i j _ _ h => slug_candidate_injective _ i j h)
    · rw [apply_ite (fun d => dget d "slug"), dget_dset_ne _ "target" "slug" _ (by decide),
        ite_self, dget_dset_self]
  · rw [if_neg hc1, if_pos hn]
    refine ⟨_, ?_, ?_, rfl⟩
    · exact searchFrom_fresh _ _ (fun i j _ _ h => slug_candidate_injective _ i j h)
    · rw [apply_ite (fun d => dget d "slug"), dget_dset_ne _ "target" "slug" _ (by decide),
        ite_self, dget_dset_self]

theorem process_card_parameters_loop_slugs (gen : Nat → Nat → String) :
    ∀ (params : List Dict) (n : Nat) (procs : List Dict) (ids slugs : List String),
      (∀ p ∈ params, hasKey p "name" = true) →
      (∀ d ∈ procs, ∃ s, dget d "slug" = some (.str s) ∧ s ∈ slugs) →
      procs.Pairwise (fun d e => dget d "slug" ≠ dget e "slug") →
      (∀ d ∈ (CP.process_card_parameters_loop gen n params (procs, ids, slugs)).1,
        ∃ s, dget d "slug" = some (.str s)) ∧
      (CP.process_card_parameters_loop gen n params (procs, ids, slugs)).1.length =
        procs.length + params.length ∧
      (CP.process_card_parameters_loop gen n params (procs, ids, slugs)).1.Pairwise
        (fun d e => dget d "slug" ≠ dget e "slug") := by
  intro params
  induction params with
  | nil =>
    intro n procs ids slugs _ hprev hpw
    simp only [CP.process_card_parameters_loop]
    exact ⟨fun d hd => ⟨(hprev d hd).choose, (hprev d hd).choose_spec.1⟩, by simp, hpw⟩
  | cons p rest ih =>
    intro n procs ids slugs hnames hprev hpw
    have hp : hasKey p "name" = true := hnames p (List.mem_cons_self p rest)
    obtain ⟨fresh, hfr, hdg, h22⟩ :=
      process_one_card_parameter_slug (gen n) p ids slugs hp
    simp only [CP.process_card_parameters_loop]
    rw [h22]
    have hprev' : ∀ d ∈ procs ++ [(CP.process_one_card_parameter (gen n) p ids slugs).1],
        ∃ s, dget d "slug" = some (.str s) ∧ s ∈ slugs ++ [fresh] := by
      intro d hd
      rcases List.mem_append.mp hd with hd | hd
      · obtain ⟨s, hs, hmem⟩ := hprev d hd
        exact ⟨s, hs, List.mem_append_left _ hmem⟩
      · simp only [List.mem_singleton] at hd
        subst hd
        exact ⟨fresh, hdg, List.mem_append_right _ (List.mem_singleton.mpr rfl)⟩
    have hpw' : (procs ++ [(CP.process_one_card_parameter (gen n) p ids slugs).1]).Pairwise
        (fun d e => dget d "slug" ≠ dget e "slug") := by
      rw [List.pairwise_append]
      refine ⟨hpw, List.pairwise_singleton _ _, ?_⟩
      intro d hd e he
      simp only [List.mem_singleton] at he
      subst he
      obtain ⟨s, hs, hmem⟩ := hprev d hd
      rw [hs, hdg]
      intro heq
      simp only [Option.some.injEq, Value.str.injEq] at heq
      exact hfr (heq ▸ hmem)
    obtain ⟨H1, H2, H3⟩ := ih (n + 1)
      (procs ++ [(CP.process_one_card_parameter (gen n) p ids slugs).1])
      (CP.process_one_card_parameter (gen n) p ids slugs).2.1 (slugs ++ [fresh])
      (fun q hq => hnames q (List.mem_cons_of_mem p hq)) hprev' hpw'
    refine ⟨H1, ?_, H3⟩
    rw [H2]
    simp [List.length_append]
    omega

/-- C5: slug generation and batch dedup.  `generate_slug_from_name`
(tools/card_parameters.py) equals the transform exactly as the claim words it
(lower-case, collapse each run of non-alphanumerics to one underscore, trim
edge underscores, `"parameter"` fallback — `slugSpec`); and in
`process_card_parameters`, on any batch whose parameters all carry a `name`,
every output parameter is assigned a slug, one per input, and the assigned
slugs are pairwise distinct (the `_1`, `_2`, … retry loop always lands on a
slug outside the already-assigned set, since the suffix candidates are
pairwise distinct). -/
theorem claim_C5_slug_pipeline :
    (∀ name, CP.generate_slug_from_name name = slugSpec name) ∧
    ∀ (gen : Nat → Nat → String) (params : List Dict),
      (∀ p ∈ params, hasKey p "name" = true) →
      (CP.process_card_parameters gen params).length = params.length ∧
      (∀ d ∈ CP.process_card_parameters gen params, ∃ s, dget d "slug" = some (.str s)) ∧
      (CP.process_card_parameters gen params).Pairwise
        (fun d e => dget d "slug" ≠ dget e "slug") := by
  constructor
  · exact fun name => slugPy_eq_slugSpec name
  · intro gen params hnames
    obtain ⟨h1, h2, h3⟩ := process_card_parameters_loop_slugs gen params 0 [] [] []
      hnames (by intro d hd; cases hd) List.Pairwise.nil
    exact ⟨by simpa using h2, h1, h3⟩

/-- Witness for C5: on the two-parameter batch `dupSlugParams`, whose names
`"My Param"` and `"my param"` both slugify to `my_param`, the pipeline emits
the slugs `my_param` and `my_param_1`, pairwise distinct. -/
theorem claim_C5_slug_pipeline_witness :
    CP.generate_slug_from_name "My Param!!" = "my_param" ∧
    (∀ p ∈ dupSlugParams, hasKey p "name" = true) ∧
    (CP.process_card_parameters (fun _ k => natDec k) dupSlugParams).length = 2 ∧
    (CP.process_card_parameters (fun _ k => natDec k) dupSlugParams).Pairwise
      (fun d e => dget d "slug" ≠ dget e "slug") ∧
    (CP.process_card_parameters (fun _ k => natDec k) dupSlugParams).map
      (fun d => dget d "slug") = [some (.str "my_param"), some (.str "my_param_1")] := by
  have h := claim_C5_slug_pipeline.2 (fun _ k => natDec k) dupSlugParams (by decide)
  exact ⟨rfl, by decide, h.1, h.2.2, rfl⟩

/-- C10: the id/slug processing never mutates its input.  In the heap
embeddings of `process_parameters` (tools/parameters.py) and
`process_card_parameters` (tools/card_parameters.py), where each input
parameter dict is a caller-owned heap cell and `param.copy()` allocates a
fresh cell, running the pipeline over any list of input addresses leaves every
pre-existing cell (every address below the allocation frontier — in
particular each input dict) unchanged, and every output address is a fresh
cell allocated by the call itself. -/
theorem claim_C10_no_input_mutation :
    (∀ (gen : Nat → Nat → String) (h : Heap) (addrs : List Nat),
      (∀ a, a < h.nxt →
        (P.process_parameters_heap gen 0 h addrs [] [] []).1.mem a = h.mem a) ∧
      ∀ b ∈ (P.process_parameters_heap gen 0 h addrs [] [] []).2, h.nxt ≤ b) ∧
    ∀ (gen : Nat → Nat → String) (h : Heap) (addrs : List Nat),
      (∀ a, a < h.nxt →
        (CP.process_card_parameters_heap gen 0 h addrs [] [] []).1.mem a = h.mem a) ∧
      ∀ b ∈ (CP.process_card_parameters_heap gen 0 h addrs [] [] []).2, h.nxt ≤ b := by
  constructor
  · intro gen h addrs
    obtain ⟨h1, _, h3⟩ := process_parameters_heap_frame gen addrs 0 h [] [] []
    refine ⟨h1, fun b hb => ?_⟩
    rcases h3 b hb with hmem | hge
    · cases hmem
    · exact hge
  · intro gen h addrs
    obtain ⟨h1, _, h3⟩ := process_card_parameters_heap_frame gen addrs 0 h [] [] []
    refine ⟨h1, fun b hb => ?_⟩
    rcases h3 b hb with hmem | hge
    · cases hmem
    · exact hge

/-- Witness for C10 on a concrete one-cell heap: processing the single input
address 0 leaves the input dict at address 0 unchanged and returns only fresh
addresses, in both embeddings. -/
theorem claim_C10_no_input_mutation_witness :
    (P.process_parameters_heap (fun _ k => natDec k) 0 testHeap [0] [] [] []).1.mem 0 =
      testHeap.mem 0 ∧
    (∀ b ∈ (P.process_parameters_heap (fun _ k => natDec k) 0 testHeap [0] [] [] []).2,
      1 ≤ b) ∧
    (CP.process_card_parameters_heap (fun _ k => natDec k) 0 testHeap [0] [] [] []).1.mem 0
      = testHeap.mem 0 := by
  obtain ⟨h1, h3⟩ := claim_C10_no_input_mutation.1 (fun _ k => natDec k) testHeap [0]
  obtain ⟨h4, _⟩ := claim_C10_no_input_mutation.2 (fun _ k => natDec k) testHeap [0]
  exact ⟨h1 0 (by decide), h3, h4 0 (by decide)⟩


theorem searchFrom_is_candidate (cand : Nat → String) (existing : List String) :
    ∀ fuel k, ∃ m, searchFrom cand existing k fuel = cand m := by
  intro fuel
  induction fuel with
  | zero => intro k; exact ⟨k, rfl⟩
  | succ f ih =>
    intro k
    unfold searchFrom
    by_cases h : cand k ∈ existing
    · rw [if_pos h]
      exact ih (k + 1)
    · exact ⟨k, by rw [if_neg h]⟩

theorem alnum_alphabet_ok : ∀ m : Fin ALNUM_ALPHABET.length,
    isAlnumChar (ALNUM_ALPHABET.get m) = true := by decide

theorem dashboard_id_format (picks : Nat → Fin 62) (n : Nat) :
    (dashboard_id picks n).length = 8 ∧
    ∀ c ∈ (dashboard_id picks n).data, isAlnumChar c = true := by
  constructor
  · simp [dashboard_id, String.length]
  · intro c hc
    simp only [dashboard_id, List.mem_map] at hc
    obtain ⟨r, _, rfl⟩ := hc
    exact alnum_alphabet_ok _

theorem hexChar_isHex (n : Nat) : isHexDigitChar (hexChar (n % 16)) = true := by
  have hfact : ∀ m, m < 16 → isHexDigitChar (hexChar m) = true := by decide
  exact hfact _ (Nat.mod_lt _ (by omega))

set_option maxRecDepth 4000 in
theorem uuid_version_nibble (z : Nat) (h : z < 256) :
    ((z &&& 15) ||| 64) / 16 % 16 = 4 := by
  revert h
  revert z
  decide

set_option maxRecDepth 4000 in
theorem uuid_variant_nibble (z : Nat) (h : z < 256) :
    ((z &&& 63) ||| 128) / 16 % 16 = 8 ∨ ((z &&& 63) ||| 128) / 16 % 16 = 9 ∨
    ((z &&& 63) ||| 128) / 16 % 16 = 10 ∨ ((z &&& 63) ||| 128) / 16 % 16 = 11 := by
  revert h
  revert z
  decide

theorem uuid4_string_format (b : Nat → Nat) : looksLikeUuid4 (uuid4_string b) = true := by
  simp only [uuid4_string, byteHex]
  simp only [List.cons_append, List.nil_append]
  unfold looksLikeUuid4
  simp only [List.all_cons, List.all_nil, Bool.and_true]
  rw [uuid_version_nibble (b 6 % 256) (Nat.mod_lt _ (by omega))]
  rcases uuid_variant_nibble (b 8 % 256) (Nat.mod_lt _ (by omega)) with hv | hv | hv | hv <;>
    rw [hv] <;>
    (simp [hexChar_isHex]; decide)

theorem process_single_dashboard_parameter_id (gen : Nat → String) (pc : Dict)
    (existing : List String) (hid : truthy (pyGet pc "id") = false) :
    dget (EDP.process_single_dashboard_parameter gen pc existing).1 "id" =
      some (.str (searchFrom gen existing 0 (existing.length + 1))) ∧
    (EDP.process_single_dashboard_parameter gen pc existing).2 =
      existing ++ [searchFrom gen existing 0 (existing.length + 1)] := by
  have hneg : ¬(truthy (pyGet pc "id") = true) := by
    rw [hid]
    exact Bool.false_ne_true
  have h1 : ∀ (d : Dict) (v : Value), dget (dset d "required" v) "id" = dget d "id" :=
    fun d v => dget_dset_ne d _ _ v (by decide)
  have h2 : ∀ (d : Dict) (v : Value), dget (dset d "default" v) "id" = dget d "id" :=
    fun d v => dget_dset_ne d _ _ v (by decide)
  have h3 : ∀ (d : Dict) (v : Value), dget (dset d "isMultiSelect" v) "id" = dget d "id" :=
    fun d v => dget_dset_ne d _ _ v (by decide)
  have h4 : ∀ (d : Dict) (v : Value), dget (dset d "temporal_units" v) "id" = dget d "id" :=
    fun d v => dget_dset_ne d _ _ v (by decide)
  have h5 : ∀ (d : Dict) (v : Value),
      dget (dset d "values_query_type" v) "id" = dget d "id" :=
    fun d v => dget_dset_ne d _ _ v (by decide)
  have h6 : ∀ (d : Dict) (v : Value),
      dget (dset d "values_source_type" v) "id" = dget d "id" :=
    fun d v => dget_dset_ne d _ _ v (by decide)
  have h7 : ∀ (d : Dict) (v : Value),
      dget (dset d "values_source_config" v) "id" = dget d "id" :=
    fun d v => dget_dset_ne d _ _ v (by decide)
  simp only [EDP.process_single_dashboard_parameter]
  rw [if_neg hneg]
  rcases hbv : EDP.build_values_source_config pc with ⟨vst, vsc⟩
  simp only [hbv]
  constructor
  · cases vst <;> cases vsc <;>
      simp only [apply_ite (fun d => dget d "id"), h1, h2, h3, h4, h5, h6, h7,
        ite_self] <;>
      simp [dget, aget]
  · trivial

theorem process_dashboard_loop_ids (gs : Nat → Nat → String) :
    ∀ (params : List Dict) (n : Nat) (procs : List Dict) (existing : List String),
      (∀ p ∈ params, truthy (pyGet p "id") = false) →
      (∀ i a b, a ≤ existing.length + params.length →
        b ≤ existing.length + params.length → gs i a = gs i b → a = b) →
      (∀ d ∈ procs, ∃ s, dget d "id" = some (.str s) ∧ s ∈ existing) →
      procs.Pairwise (fun d e => dget d "id" ≠ dget e "id") →
      (∀ d ∈ (EDP.process_dashboard_loop gs n params (procs, existing)).1,
        ∃ s, dget d "id" = some (.str s)) ∧
      (EDP.process_dashboard_loop gs n params (procs, existing)).1.length =
        procs.length + params.length ∧
      (EDP.process_dashboard_loop gs n params (procs, existing)).1.Pairwise
        (fun d e => dget d "id" ≠ dget e "id") := by
  intro params
  induction params with
  | nil =>
    intro n procs existing _ _ hprev hpw
    simp only [EDP.process_dashboard_loop]
    exact ⟨fun d hd => ⟨(hprev d hd).choose, (hprev d hd).choose_spec.1⟩, by simp, hpw⟩
  | cons p rest ih =>
    intro n procs existing hnoid hinj hprev hpw
    have hp : truthy (pyGet p "id") = false := hnoid p (List.mem_cons_self p rest)
    obtain ⟨hdg, h2⟩ := process_single_dashboard_parameter_id (gs n) p existing hp
    have hfr : searchFrom (gs n) existing 0 (existing.length + 1) ∉ existing := by
      apply searchFrom_fresh
      intro i j hi hj hij
      refine hinj n i j ?_ ?_ hij <;> simp [List.length_cons] <;> omega
    simp only [EDP.process_dashboard_loop]
    rw [h2]
    have hprev' : ∀ d ∈ procs ++
        [(EDP.process_single_dashboard_parameter (gs n) p existing).1],
        ∃ s, dget d "id" = some (.str s) ∧
          s ∈ existing ++ [searchFrom (gs n) existing 0 (existing.length + 1)] := by
      intro d hd
      rcases List.mem_append.mp hd with hd | hd
      · obtain ⟨s, hs, hmem⟩ := hprev d hd
        exact ⟨s, hs, List.mem_append_left _ hmem⟩
      · simp only [List.mem_singleton] at hd
        subst hd
        exact ⟨_, hdg, List.mem_append_right _ (List.mem_singleton.mpr rfl)⟩
    have hpw' : (procs ++
        [(EDP.process_single_dashboard_parameter (gs n) p existing).1]).Pairwise
        (fun d e => dget d "id" ≠ dget e "id") := by
      rw [List.pairwise_append]
      refine ⟨hpw, List.pairwise_singleton _ _, ?_⟩
      intro d hd e he
      simp only [List.mem_singleton] at he
      subst he
      obtain ⟨s, hs, hmem⟩ := hprev d hd
      rw [hs, hdg]
      intro heq
      simp only [Option.some.injEq, Value.str.injEq] at heq
      exact hfr (heq ▸ hmem)
    have hinj' : ∀ i a b,
        a ≤ (existing ++ [searchFrom (gs n) existing 0 (existing.length + 1)]).length +
          rest.length →
        b ≤ (existing ++ [searchFrom (gs n) existing 0 (existing.length + 1)]).length +
          rest.length → gs i a = gs i b → a = b := by
      intro i a b ha hb hab
      simp only [List.length_append, List.length_singleton] at ha hb
      refine hinj i a b ?_ ?_ hab <;> simp [List.length_cons] <;> omega
    obtain ⟨H1, H2, H3⟩ := ih (n + 1)
      (procs ++ [(EDP.process_single_dashboard_parameter (gs n) p existing).1])
      (existing ++ [searchFrom (gs n) existing 0 (existing.length + 1)])
      (fun q hq => hnoid q (List.mem_cons_of_mem p hq)) hinj' hprev' hpw'
    refine ⟨H1, ?_, H3⟩
    rw [H2]
    simp [List.length_append]
    omega

theorem process_one_card_parameter_id (gen : Nat → String) (p : Dict)
    (ids slugs : List String)
    (hid : (!hasKey p "id" || !truthy (pyGet p "id")) = true) :
    dget (CP.process_one_card_parameter gen p ids slugs).1 "id" =
      some (.str (searchFrom gen ids 0 (ids.length + 1))) ∧
    (CP.process_one_card_parameter gen p ids slugs).2.1 =
      ids ++ [searchFrom gen ids 0 (ids.length + 1)] := by
  have hslug : ∀ (d : Dict) (v : Value), dget (dset d "slug" v) "id" = dget d "id" :=
    fun d v => dget_dset_ne d _ _ v (by decide)
  have htgt : ∀ (d : Dict) (v : Value), dget (dset d "target" v) "id" = dget d "id" :=
    fun d v => dget_dset_ne d _ _ v (by decide)
  have hfst : dget (CP.process_one_card_parameter gen p ids slugs).1 "id" =
      some (.str (searchFrom gen ids 0 (ids.length + 1))) := by
    simp only [CP.process_one_card_parameter]
    rw [if_pos hid]
    simp only [apply_ite (fun x : Dict × List String => x.1),
      apply_ite (fun d : Dict => dget d "id"), hslug, htgt, ite_self, dget_dset_self]
  have hsnd : (CP.process_one_card_parameter gen p ids slugs).2.1 =
      ids ++ [asStr (pyGet (CP.process_one_card_parameter gen p ids slugs).1 "id")] := rfl
  refine ⟨hfst, ?_⟩
  rw [hsnd, pyGet, hfst]
  rfl

theorem process_card_parameters_loop_ids (gen : Nat → Nat → String) :
    ∀ (params : List Dict) (n : Nat) (procs : List Dict) (ids slugs : List String),
      (∀ p ∈ params, (!hasKey p "id" || !truthy (pyGet p "id")) = true) →
      (∀ i a b, a ≤ ids.length + params.length → b ≤ ids.length + params.length →
        gen i a = gen i b → a = b) →
      (∀ d ∈ procs, ∃ s, dget d "id" = some (.str s) ∧ s ∈ ids) →
      procs.Pairwise (fun d e => dget d "id" ≠ dget e "id") →
      (∀ d ∈ (CP.process_card_parameters_loop gen n params (procs, ids, slugs)).1,
        ∃ s, dget d "id" = some (.str s)) ∧
      (CP.process_card_parameters_loop gen n params (procs, ids, slugs)).1.Pairwise
        (fun d e => dget d "id" ≠ dget e "id") := by
  intro params
  induction params with
  | nil =>
    intro n procs ids slugs _ _ hprev hpw
    simp only [CP.process_card_parameters_loop]
    exact ⟨fun d hd => ⟨(hprev d hd).choose, (hprev d hd).choose_spec.1⟩, hpw⟩
  | cons p rest ih =>
    intro n procs ids slugs hnoid hinj hprev hpw
    have hp : (!hasKey p "id" || !truthy (pyGet p "id")) = true :=
      hnoid p (List.mem_cons_self p rest)
    obtain ⟨hdg, h21⟩ := process_one_card_parameter_id (gen n) p ids slugs hp
    have hfr : searchFrom (gen n) ids 0 (ids.length + 1) ∉ ids := by
      apply searchFrom_fresh
      intro i j hi hj hij
      refine hinj n i j ?_ ?_ hij <;> simp [List.length_cons] <;> omega
    simp only [CP.process_card_parameters_loop]
    rw [h21]
    have hprev' : ∀ d ∈ procs ++ [(CP.process_one_card_parameter (gen n) p ids slugs).1],
        ∃ s, dget d "id" = some (.str s) ∧
          s ∈ ids ++ [searchFrom (gen n) ids 0 (ids.length + 1)] := by
      intro d hd
      rcases List.mem_append.mp hd with hd | hd
      · obtain ⟨s, hs, hmem⟩ := hprev d hd
        exact ⟨s, hs, List.mem_append_left _ hmem⟩
      · simp only [List.mem_singleton] at hd
        subst hd
        exact ⟨_, hdg, List.mem_append_right _ (List.mem_singleton.mpr rfl)⟩
    have hpw' : (procs ++ [(CP.process_one_card_parameter (gen n) p ids slugs).1]).Pairwise
        (fun d e => dget d "id" ≠ dget e "id") := by
      rw [List.pairwise_append]
      refine ⟨hpw, List.pairwise_singleton _ _, ?_⟩
      intro d hd e he
      simp only [List.mem_singleton] at he
      subst he
      obtain ⟨s, hs, hmem⟩ := hprev d hd
      rw [hs, hdg]
      intro heq
      simp only [Option.some.injEq, Value.str.injEq] at heq
      exact hfr (heq ▸ hmem)
    have hinj' : ∀ i a b,
        a ≤ (ids ++ [searchFrom (gen n) ids 0 (ids.length + 1)]).length + rest.length →
        b ≤ (ids ++ [searchFrom (gen n) ids 0 (ids.length + 1)]).length + rest.length →
        gen i a = gen i b → a = b := by
      intro i a b ha hb hab
      simp only [List.length_append, List.length_singleton] at ha hb
      refine hinj i a b ?_ ?_ hab <;> simp [List.length_cons] <;> omega
    exact ih (n + 1) (procs ++ [(CP.process_one_card_parameter (gen n) p ids slugs).1])
      (ids ++ [searchFrom (gen n) ids 0 (ids.length + 1)])
      (CP.process_one_card_parameter (gen n) p ids slugs).2.2
      (fun q hq => hnoid q (List.mem_cons_of_mem p hq)) hinj' hprev' hpw'

/-- C6: id allocation formats and batch uniqueness.  Dashboard-scoped
candidates (`random.choices` over letters+digits, k=8) are 8-character
alphanumeric strings, query-scoped candidates (`str(uuid.uuid4())`) have the
canonical version-4 UUID form; every generated id is some candidate of the
retry loop (`searchFrom`); in both `process_single_dashboard_parameter` and
the card-parameter body an absent/falsy configured id receives the retry
loop's value against the ids already present; and over a whole batch without
configured ids the emitted ids are pairwise distinct, provided the injected
candidate streams do not repeat within the retry window (true with
probability 1 for the random sources). -/
theorem claim_C6_id_allocation :
    (∀ (picks : Nat → Fin 62) (n : Nat),
      (dashboard_id picks n).length = 8 ∧
      ∀ c ∈ (dashboard_id picks n).data, isAlnumChar c = true) ∧
    (∀ b : Nat → Nat, looksLikeUuid4 (uuid4_string b) = true) ∧
    (∀ (cand : Nat → String) (existing : List String) (fuel k : Nat),
      ∃ m, searchFrom cand existing k fuel = cand m) ∧
    (∀ (gen : Nat → String) (pc : Dict) (existing : List String),
      truthy (pyGet pc "id") = false →
      dget (EDP.process_single_dashboard_parameter gen pc existing).1 "id" =
        some (.str (searchFrom gen existing 0 (existing.length + 1)))) ∧
    (∀ (gs : Nat → Nat → String) (params : List Dict),
      (∀ p ∈ params, truthy (pyGet p "id") = false) →
      (∀ i a b, a ≤ params.length → b ≤ params.length → gs i a = gs i b → a = b) →
      (∀ d ∈ (EDP.process_dashboard_loop gs 0 params ([], [])).1,
        ∃ s, dget d "id" = some (.str s)) ∧
      (EDP.process_dashboard_loop gs 0 params ([], [])).1.Pairwise
        (fun d e => dget d "id" ≠ dget e "id")) ∧
    (∀ (gen : Nat → String) (p : Dict) (ids slugs : List String),
      (!hasKey p "id" || !truthy (pyGet p "id")) = true →
      dget (CP.process_one_card_parameter gen p ids slugs).1 "id" =
        some (.str (searchFrom gen ids 0 (ids.length + 1)))) ∧
    ∀ (gen : Nat → Nat → String) (params : List Dict),
      (∀ p ∈ params, (!hasKey p "id" || !truthy (pyGet p "id")) = true) →
      (∀ i a b, a ≤ params.length → b ≤ params.length → gen i a = gen i b → a = b) →
      (∀ d ∈ CP.process_card_parameters gen params, ∃ s, dget d "id" = some (.str s)) ∧
      (CP.process_card_parameters gen params).Pairwise
        (fun d e => dget d "id" ≠ dget e "id") := by
  refine ⟨?_, ?_, ?_, ?_, ?_, ?_, ?_⟩
  · exact dashboard_id_format
  · exact uuid4_string_format
  · exact fun cand existing fuel k => searchFrom_is_candidate cand existing fuel k
  · exact fun gen pc existing hid =>
      (process_single_dashboard_parameter_id gen pc existing hid).1
  · intro gs params hnoid hinj
    obtain ⟨H1, _, H3⟩ := process_dashboard_loop_ids gs params 0 [] [] hnoid
      (by
        intro i a b ha hb hab
        exact hinj i a b (by simpa using ha) (by simpa using hb) hab)
      (by intro d hd; cases hd) List.Pairwise.nil
    exact ⟨H1, H3⟩
  · exact fun gen p ids slugs hid =>
      (process_one_card_parameter_id gen p ids slugs hid).1
  · intro gen params hnoid hinj
    obtain ⟨H1, H2⟩ := process_card_parameters_loop_ids gen params 0 [] [] [] hnoid
      (by
        intro i a b ha hb hab
        exact hinj i a b (by simpa using ha) (by simpa using hb) hab)
      (by intro d hd; cases hd) List.Pairwise.nil
    exact ⟨H1, H2⟩

/-- Witness for C6 at concrete inputs: the all-`a` dashboard id, the all-zero
version-4 UUID, and the two-parameter batch `twoDashParams` under the
candidate stream `0, 1, 2, …` — the second parameter's first candidate `"0"`
collides and the retry loop lands on `"1"`, so the batch ids are `0`, `1`,
pairwise distinct, in both scopes. -/
theorem claim_C6_id_allocation_witness :
    dashboard_id (fun _ => ⟨0, by decide⟩) 0 = "aaaaaaaa" ∧
    (dashboard_id (fun _ => ⟨0, by decide⟩) 0).length = 8 ∧
    looksLikeUuid4 (uuid4_string (fun _ => 0)) = true ∧
    uuid4_string (fun _ => 0) = "00000000-0000-4000-8000-000000000000" ∧
    (∀ p ∈ twoDashParams, truthy (pyGet p "id") = false) ∧
    (EDP.process_dashboard_loop (fun _ k => natDec k) 0 twoDashParams ([], [])).1.Pairwise
      (fun d e => dget d "id" ≠ dget e "id") ∧
    (EDP.process_dashboard_loop (fun _ k => natDec k) 0 twoDashParams ([], [])).1.map
      (fun d => dget d "id") = [some (.str "0"), some (.str "1")] ∧
    (CP.process_card_parameters (fun _ k => natDec k) twoDashParams).Pairwise
      (fun d e => dget d "id" ≠ dget e "id") := by
  have hd := claim_C6_id_allocation.2.2.2.2.1 (fun _ k => natDec k) twoDashParams
    (by decide) (fun i a b _ _ h => natDec_injective h)
  have hq := claim_C6_id_allocation.2.2.2.2.2.2 (fun _ k => natDec k) twoDashParams
    (by decide) (fun i a b _ _ h => natDec_injective h)
  exact ⟨rfl, (claim_C6_id_allocation.1 (fun _ => ⟨0, by decide⟩) 0).1,
    claim_C6_id_allocation.2.1 (fun _ => 0), rfl, by decide, hd.2, rfl, hq.2⟩


theorem mappings_loop_eq (i : Nat) (cid : Value)
    (dpbn bn bs : List (String × Dict)) :
    ∀ (pms : List Value) (j : Nat) (acc : List Value × List String),
      DC.mappings_loop i cid dpbn bn bs j pms acc =
        (DC.mappings_of i cid dpbn bn bs j pms).map
          (fun r => (acc.1 ++ r.1, acc.2 ++ r.2)) := by
  intro pms
  induction pms with
  | nil =>
    intro j acc
    simp [DC.mappings_loop, DC.mappings_of]
  | cons mv rest ih =>
    intro j acc
    cases mv with
    | dict m =>
      simp only [DC.mappings_loop, DC.mappings_of]
      cases hpm : DC.process_mapping i j cid dpbn bn bs m with
      | none => rfl
      | some r =>
        dsimp only
        rw [ih (j + 1) (acc.1 ++ r.1, acc.2 ++ r.2)]
        cases hrs : DC.mappings_of i cid dpbn bn bs (j + 1) rest with
        | none => rfl
        | some rs => simp [List.append_assoc]
    | null => rfl
    | bool b => rfl
    | int n => rfl
    | str s => rfl
    | list l => rfl

theorem list_isEmpty_false_of_ne_nil {α : Type} {l : List α} (h : l ≠ []) :
    l.isEmpty = false := by
  cases l with
  | nil => exact absurd rfl h
  | cons a t => rfl

theorem process_mapping_resolved_name (i j : Nat) (cid : Value)
    (dpbn bn bs : List (String × Dict)) (mapping : Dict) (dn cn : String)
    (dp cp : Dict) (pid tgt : Value)
    (h1 : dget mapping "dashboard_parameter_name" = some (.str dn))
    (h2 : dget mapping "card_parameter_name" = some (.str cn))
    (h3 : aget dpbn dn = some dp)
    (h4 : aget bn cn = some cp)
    (h5 : cp ≠ [])
    (h6 : dget dp "id" = some pid)
    (h7 : dget cp "target" = some tgt) :
    DC.process_mapping i j cid dpbn bn bs mapping =
      some ([.dict [("card_id", cid), ("parameter_id", pid), ("target", tgt)]], []) := by
  simp [DC.process_mapping, h1, h2, h3, h4, h6, h7, list_isEmpty_false_of_ne_nil h5]

theorem process_mapping_resolved_slug (i j : Nat) (cid : Value)
    (dpbn bn bs : List (String × Dict)) (mapping : Dict) (dn cn : String)
    (dp cp : Dict) (pid tgt : Value)
    (h1 : dget mapping "dashboard_parameter_name" = some (.str dn))
    (h2 : dget mapping "card_parameter_name" = some (.str cn))
    (h3 : aget dpbn dn = some dp)
    (h4 : aget bn cn = none ∨ aget bn cn = some [])
    (h4b : aget bs cn = some cp)
    (h5 : cp ≠ [])
    (h6 : dget dp "id" = some pid)
    (h7 : dget cp "target" = some tgt) :
    DC.process_mapping i j cid dpbn bn bs mapping =
      some ([.dict [("card_id", cid), ("parameter_id", pid), ("target", tgt)]], []) := by
  rcases h4 with h4 | h4 <;>
    simp [DC.process_mapping, h1, h2, h3, h4, h4b, h6, h7,
      list_isEmpty_false_of_ne_nil h5]

theorem process_mapping_dashboard_missing (i j : Nat) (cid : Value)
    (dpbn bn bs : List (String × Dict)) (mapping : Dict) (dn : String) (cpn : Value)
    (h1 : dget mapping "dashboard_parameter_name" = some (.str dn))
    (h2 : dget mapping "card_parameter_name" = some cpn)
    (h3 : aget dpbn dn = none) :
    DC.process_mapping i j cid dpbn bn bs mapping =
      some ([], ["Dashcard " ++ natDec i ++ " mapping " ++ natDec j ++
        ": Dashboard parameter '" ++ dn ++ "' not found"]) := by
  simp [DC.process_mapping, h1, h2, h3, pyStr]

theorem process_mapping_card_missing (i j : Nat) (cid : Value)
    (dpbn bn bs : List (String × Dict)) (mapping : Dict) (dn cn : String) (dp : Dict)
    (h1 : dget mapping "dashboard_parameter_name" = some (.str dn))
    (h2 : dget mapping "card_parameter_name" = some (.str cn))
    (h3 : aget dpbn dn = some dp)
    (h4 : aget bn cn = none ∨ aget bn cn = some [])
    (h5 : aget bs cn = none ∨ aget bs cn = some []) :
    DC.process_mapping i j cid dpbn bn bs mapping =
      some ([], ["Dashcard " ++ natDec i ++ " mapping " ++ natDec j ++
        ": Card parameter '" ++ cn ++ "' not found in card " ++ pyStr cid]) := by
  rcases h4 with h4 | h4 <;> rcases h5 with h5 | h5 <;>
    simp [DC.process_mapping, h1, h2, h3, h4, h5, pyStr]

theorem process_dashcard_no_mappings (dpbn : List (String × Dict))
    (cpbc : Int → List Dict) (idx : Nat) (dashcard : Dict) (cid : Value)
    (hcid : dget dashcard "card_id" = some cid)
    (h : truthy (pyGet dashcard "parameter_mappings") = false) :
    DC.process_dashcard dpbn cpbc idx dashcard = some (dashcard, []) := by
  simp [DC.process_dashcard, hcid, h]

/-- C7: the dashcard mapping linker.  The pair loop of one dashcard processes
every pair, concatenating in pair order the mappings and errors each pair
produces (so an unresolved pair never stops processing); a pair whose
dashboard parameter is found by name and whose card parameter is found by
name — or, when the name lookup misses or yields a falsy (empty) dict, by
slug — resolves to exactly one Metabase mapping carrying the card's id, the
dashboard parameter's id as `parameter_id`, and the card parameter's
`target`; a pair whose dashboard parameter name is unknown yields only the
error naming the dashcard index, pair index and missing dashboard parameter
name; a pair whose card parameter is found neither by name nor by slug yields
only the error naming the dashcard index, pair index, missing card parameter
name and card; and a dashcard without (truthy) parameter mappings passes
through unchanged with no errors. -/
theorem claim_C7_mapping_resolution :
    (∀ (i : Nat) (cid : Value) (dpbn bn bs : List (String × Dict)) (pms : List Value)
      (j : Nat) (acc : List Value × List String),
      DC.mappings_loop i cid dpbn bn bs j pms acc =
        (DC.mappings_of i cid dpbn bn bs j pms).map
          (fun r => (acc.1 ++ r.1, acc.2 ++ r.2))) ∧
    (∀ (i j : Nat) (cid : Value) (dpbn bn bs : List (String × Dict)) (mapping : Dict)
      (dn cn : String) (dp cp : Dict) (pid tgt : Value),
      dget mapping "dashboard_parameter_name" = some (.str dn) →
      dget mapping "card_parameter_name" = some (.str cn) →
      aget dpbn dn = some dp →
      aget bn cn = some cp →
      cp ≠ [] →
      dget dp "id" = some pid →
      dget cp "target" = some tgt →
      DC.process_mapping i j cid dpbn bn bs mapping =
        some ([.dict [("card_id", cid), ("parameter_id", pid), ("target", tgt)]], [])) ∧
    (∀ (i j : Nat) (cid : Value) (dpbn bn bs : List (String × Dict)) (mapping : Dict)
      (dn cn : String) (dp cp : Dict) (pid tgt : Value),
      dget mapping "dashboard_parameter_name" = some (.str dn) →
      dget mapping "card_parameter_name" = some (.str cn) →
      aget dpbn dn = some dp →
      aget bn cn = none ∨ aget bn cn = some [] →
      aget bs cn = some cp →
      cp ≠ [] →
      dget dp "id" = some pid →
      dget cp "target" = some tgt →
      DC.process_mapping i j cid dpbn bn bs mapping =
        some ([.dict [("card_id", cid), ("parameter_id", pid), ("target", tgt)]], [])) ∧
    (∀ (i j : Nat) (cid : Value) (dpbn bn bs : List (String × Dict)) (mapping : Dict)
      (dn : String) (cpn : Value),
      dget mapping "dashboard_parameter_name" = some (.str dn) →
      dget mapping "card_parameter_name" = some cpn →
      aget dpbn dn = none →
      DC.process_mapping i j cid dpbn bn bs mapping =
        some ([], ["Dashcard " ++ natDec i ++ " mapping " ++ natDec j ++
          ": Dashboard parameter '" ++ dn ++ "' not found"])) ∧
    (∀ (i j : Nat) (cid : Value) (dpbn bn bs : List (String × Dict)) (mapping : Dict)
      (dn cn : String) (dp : Dict),
      dget mapping "dashboard_parameter_name" = some (.str dn) →
      dget mapping "card_parameter_name" = some (.str cn) →
      aget dpbn dn = some dp →
      aget bn cn = none ∨ aget bn cn = some [] →
      aget bs cn = none ∨ aget bs cn = some [] →
      DC.process_mapping i j cid dpbn bn bs mapping =
        some ([], ["Dashcard " ++ natDec i ++ " mapping " ++ natDec j ++
          ": Card parameter '" ++ cn ++ "' not found in card " ++ pyStr cid])) ∧
    ∀ (dpbn : List (String × Dict)) (cpbc : Int → List Dict) (idx : Nat)
      (dashcard : Dict) (cid : Value),
      dget dashcard "card_id" = some cid →
      truthy (pyGet dashcard "parameter_mappings") = false →
      DC.process_dashcard dpbn cpbc idx dashcard = some (dashcard, []) := by
  refine ⟨?_, ?_, ?_, ?_, ?_, ?_⟩
  · exact fun i cid dpbn bn bs pms j acc => mappings_loop_eq i cid dpbn bn bs pms j acc
  · exact fun i j cid dpbn bn bs mapping dn cn dp cp pid tgt h1 h2 h3 h4 h5 h6 h7 =>
      process_mapping_resolved_name i j cid dpbn bn bs mapping dn cn dp cp pid tgt
        h1 h2 h3 h4 h5 h6 h7
  · exact fun i j cid dpbn bn bs mapping dn cn dp cp pid tgt h1 h2 h3 h4 h4b h5 h6 h7 =>
      process_mapping_resolved_slug i j cid dpbn bn bs mapping dn cn dp cp pid tgt
        h1 h2 h3 h4 h4b h5 h6 h7
  · exact fun i j cid dpbn bn bs mapping dn cpn h1 h2 h3 =>
      process_mapping_dashboard_missing i j cid dpbn bn bs mapping dn cpn h1 h2 h3
  · exact fun i j cid dpbn bn bs mapping dn cn dp h1 h2 h3 h4 h5 =>
      process_mapping_card_missing i j cid dpbn bn bs mapping dn cn dp h1 h2 h3 h4 h5
  · exact fun dpbn cpbc idx dashcard cid hcid h =>
      process_dashcard_no_mappings dpbn cpbc idx dashcard cid hcid h

/-- Witness for C7 on Scenario D: the full pipeline links the name-based pair
to `{card_id: 42, parameter_id: "d1", target: dimension(date_filter)}` with no
errors, the resolution equation applies to the concrete pair, and an unknown
dashboard parameter name yields exactly the indexed error. -/
theorem claim_C7_mapping_resolution_witness :
    DC.process_parameter_mappings scenDDashcards scenDDashboardParams scenDCardParams =
      some ([[("card_id", .int 42), ("col", .int 0), ("row", .int 0),
        ("parameter_mappings", .list [.dict
          [("card_id", .int 42), ("parameter_id", .str "d1"),
           ("target", scenDTarget)]])]], []) ∧
    DC.process_mapping 0 0 (.int 42) [("Date Range", scenDDp)]
      [("date_filter", scenDCp)] [("date_filter", scenDCp)]
      [("dashboard_parameter_name", .str "Date Range"),
       ("card_parameter_name", .str "date_filter")] =
      some ([.dict [("card_id", .int 42), ("parameter_id", .str "d1"),
        ("target", scenDTarget)]], []) ∧
    DC.process_mapping 0 0 (.int 42) [("Date Range", scenDDp)]
      [("date_filter", scenDCp)] [("date_filter", scenDCp)]
      [("dashboard_parameter_name", .str "Other"),
       ("card_parameter_name", .str "date_filter")] =
      some ([], ["Dashcard " ++ natDec 0 ++ " mapping " ++ natDec 0 ++
        ": Dashboard parameter '" ++ "Other" ++ "' not found"]) := by
  refine ⟨rfl, ?_, ?_⟩
  · exact claim_C7_mapping_resolution.2.1 0 0 (.int 42) [("Date Range", scenDDp)]
      [("date_filter", scenDCp)] [("date_filter", scenDCp)]
      [("dashboard_parameter_name", .str "Date Range"),
       ("card_parameter_name", .str "date_filter")]
      "Date Range" "date_filter" scenDDp scenDCp (.str "d1") scenDTarget
      rfl rfl rfl rfl (List.cons_ne_nil _ _) rfl rfl
  · exact claim_C7_mapping_resolution.2.2.2.1 0 0 (.int 42) [("Date Range", scenDDp)]
      [("date_filter", scenDCp)] [("date_filter", scenDCp)]
      [("dashboard_parameter_name", .str "Other"),
       ("card_parameter_name", .str "date_filter")]
      "Other" (.str "date_filter") rfl rfl rfl

end TTM
